import Mathlib

/-!
Verification development for the preCICE coupling-runtime session facade
(`SolverInterfaceImpl`).  The C++ source is shallowly embedded: doubles are
modelled as rationals, the coupling scheme is an external collaborator
modelled as an abstract state type together with a record of operations
(matching spec section 1, which scopes the scheme behind its interface), and
inter-process I/O is recorded as events in an event log carried by the
facade state.
-/

set_option autoImplicit false

namespace Precice

/-- Error taxonomy. Modelled from the spec: section 7 assigns kinds to the
error sites of the source (`PRECICE_CHECK` caller-contract violations map to
`UsageError`, lifecycle-phase violations to `StateError`, inter-participant
or inter-rank inconsistencies to `ProtocolError`, failed internal assertions
(`PRECICE_ASSERT`) to `InternalError`). -/
inductive ErrorKind where
  | configError
  | usageError
  | stateError
  | protocolError
  | transportError
  | internalError
deriving DecidableEq

/-- Mapping timing, from `mapping::MappingConfiguration::Timing` (the header
is not part of the sources; spec section 4.4 fixes the two values INITIAL and
ON_ADVANCE). -/
inductive Timing where
  | initial
  | onAdvance
deriving DecidableEq

/-- Action timings, from `action::Action::Timing` in the `Action` header. -/
inductive ActionTiming where
  | alwaysPrior
  | alwaysPost
  | onExchangePrior
  | onExchangePost
  | onTimestepCompletePost
deriving DecidableEq

/-- Observable steps of the facade.  External collaborators (channels,
interpolation kernels, exporters, watchpoints, user actions) are out of scope
per spec section 1; invoking one is recorded as an event. -/
inductive Event where
  | connectMasters (remote : String)
  | communicateMesh (mesh : List ℕ)
  | computeMesh (mesh : List ℕ)
  | connectSlaves (remote : String)
  | initWatchpoints
  | schemeInit (time : ℚ) (timestep : Int)
  | syncTimestep (dt : ℚ)
  | schemeAddComputedTime (dt : ℚ)
  | computeWriteMapping (i : Nat)
  | mapWriteData (inId outId : Nat)
  | clearWriteMapping (i : Nat)
  | computeReadMapping (i : Nat)
  | mapReadDataEvt (inId outId : Nat)
  | clearReadMapping (i : Nat)
  | dataActions (timings : List ActionTiming) (time dt part full : ℚ)
  | schemeAdvance
  | handleExportsEvt
  | lockAllEvt
  | schemeFinalize
  | finalExports
  | sendPing (remote : String)
  | recvPong (remote : String)
  | recvPing (remote : String)
  | sendPong (remote : String)
  | closeM2N (remote : String)
  | closeMasterSlave
deriving DecidableEq

/-- Operations of the coupling-scheme interface (`cplscheme::CouplingScheme`)
consumed by the facade, over an abstract scheme-state type. -/
structure SchemeOps (σ : Type) where
  isInitialized : σ → Bool
  isCouplingOngoing : σ → Bool
  hasDataBeenExchanged : σ → Bool
  willDataBeExchanged : σ → ℚ → Bool
  isCouplingTimestepComplete : σ → Bool
  hasTimestepLength : σ → Bool
  getTimestepLength : σ → ℚ
  getThisTimestepRemainder : σ → ℚ
  getTime : σ → ℚ
  getNextTimestepMaxLength : σ → ℚ
  getTimesteps : σ → Int
  initializeScheme : σ → ℚ → Int → σ
  addComputedTime : σ → ℚ → σ
  advanceScheme : σ → σ
  finalizeScheme : σ → σ

/-- Context of one mapping (`impl::MappingContext`): timing and the two flags
the dispatcher reads.  `hasComputedMapping` stands for
`mapping->hasComputedMapping()`; `clear()` releases the computed operator
(spec section 5: mappings allocate inside `computeMapping`, release inside
`clear`), so it resets this flag. -/
structure MappingContext where
  timing : Timing
  hasComputedMapping : Bool
  hasMappedData : Bool
deriving DecidableEq

/-- One data object (`mesh::Data`): ID, owning mesh, dimensionality
(1 for scalar, space dimension for vector) and the dense values array. -/
structure DataObj where
  id : Nat
  meshId : Nat
  dims : Nat
  values : List ℚ
deriving DecidableEq

/-- One read- or write-data context (`impl::DataContext`): source and target
data IDs and the (shared) mapping context it carries, referenced by its index
in the participant's mapping-context list (`none` models a null mapping). -/
structure DataCtx where
  meshId : Nat
  fromDataID : Nat
  toDataID : Nat
  mappingIdx : Option Nat
deriving DecidableEq

/-- One used-mesh context (`impl::MeshContext`): id, name, provide/receive
role, presence and timing of its from- and to-mapping contexts, and the vertex
coordinates of the mesh it owns.  The mesh name is modelled as its list of
character codes, so that the alphabetical (lexicographic) order used by
`computePartitions` is the kernel-evaluable lexicographic order on them. -/
structure MeshCtx where
  id : Nat
  name : List ℕ
  provideMesh : Bool
  hasFromMapping : Bool
  hasToMapping : Bool
  fromTiming : Timing
  toTiming : Timing
  vertices : List (List ℚ)
deriving DecidableEq

/-- One bound inter-participant channel (`m2n::BoundM2N`). -/
structure M2NCtx where
  remoteName : String
  isRequesting : Bool
deriving DecidableEq

/-- The facade state of `SolverInterfaceImpl` over an abstract coupling-scheme
state `σ`.  `ndebugDefined` models the C++ preprocessor flag `NDEBUG`
(when true, the `#ifndef NDEBUG` block of `advance` is compiled out);
`slaveDts` are the timestep lengths the master receives from the slave ranks
in `syncTimestep`; `events` is the log of observable steps. -/
structure SIState (σ : Type) where
  scheme : σ
  dimensions : Nat
  isMaster : Bool
  isSlave : Bool
  ndebugDefined : Bool
  slaveDts : List ℚ
  meshLock : List (Nat × Bool)
  meshes : List MeshCtx
  m2ns : List M2NCtx
  readMappingCtxs : List MappingContext
  writeMappingCtxs : List MappingContext
  readDataCtxs : List DataCtx
  writeDataCtxs : List DataCtx
  datas : List DataObj
  numberAdvanceCalls : Nat
  events : List Event
deriving DecidableEq

/-- Absolute comparison tolerance `math::NUMERICAL_ZERO_DIFFERENCE` (1e-14). -/
def numericalZeroDifference : ℚ := 1 / 10 ^ 14

/-- Modelled from the spec: tolerant ("bitwise-near") equality
`math::equals` with absolute tolerance `NUMERICAL_ZERO_DIFFERENCE`
(`math.hpp` is not part of the sources).  On rationals,
`|a - b| <= 1/10^14` is expressed on numerators and denominators so that it
is kernel-evaluable; `mathEquals_iff` below relates it to the tolerance
form. -/
def mathEquals (a b : ℚ) : Bool :=
  decide ((a.num * b.den - b.num * a.den).natAbs * 10 ^ 14 ≤ a.den * b.den)

/-- MeshLock::lockAll - lock every registered mesh. -/
def lockAll (l : List (Nat × Bool)) : List (Nat × Bool) :=
  l.map fun p => (p.1, true)

/-- MeshLock::unlock - unlock exactly one registered mesh. -/
def unlockMesh (l : List (Nat × Bool)) (m : Nat) : List (Nat × Bool) :=
  l.map fun p => if p.1 == m then (p.1, false) else p

/-- MeshLock::check - is the mesh locked?  An unregistered ID counts as
locked (the conservative default; `configure` registers every mesh ID). -/
def lockCheck (l : List (Nat × Bool)) (m : Nat) : Bool :=
  ((l.find? fun p => p.1 == m).map Prod.snd).getD true

/-- Every registered mesh is locked. -/
def allLocked (l : List (Nat × Bool)) : Bool :=
  l.all fun p => p.2

/-- Lookup of a used-mesh context by mesh ID (`Participant::meshContext`). -/
def findMesh {σ : Type} (s : SIState σ) (meshID : Nat) : Option MeshCtx :=
  s.meshes.find? fun c => c.id == meshID

/-- Modelled from the spec: `PRECICE_VALIDATE_MESH_ID` (the
`ValidationMacros` header is not part of the sources; spec section 4.2:
every entry point taking a mesh ID validates it against the known set,
invalid IDs give `UsageError`). -/
def validMeshID {σ : Type} (s : SIState σ) (meshID : Nat) : Bool :=
  s.meshes.any fun c => c.id == meshID

/-- Lookup of a data object by data ID. -/
def findData {σ : Type} (s : SIState σ) (dataID : Nat) : Option DataObj :=
  s.datas.find? fun d => d.id == dataID

/-- Modelled from the spec: `PRECICE_VALIDATE_DATA_ID` (macro header not in
the sources; spec section 4.2: data IDs are validated against the known set,
invalid IDs give `UsageError`). -/
def validDataID {σ : Type} (s : SIState σ) (dataID : Nat) : Bool :=
  s.datas.any fun d => d.id == dataID

/-- Modelled from the spec: `PRECICE_REQUIRE_MESH_MODIFY` (macro header not
in the sources; spec sections 4.1 and 8: geometry mutation validates the mesh
ID and is rejected with `UsageError` while the per-mesh lock is engaged). -/
def requireMeshModify {σ : Type} (s : SIState σ) (meshID : Nat) :
    Except ErrorKind Unit :=
  if !validMeshID s meshID then .error .usageError
  else if lockCheck s.meshLock meshID then .error .usageError
  else .ok ()

/-- Zeroing of one data values buffer (`Eigen::VectorXd::Zero(size)` keeps
the size and sets every entry to zero). -/
def zeroValues (d : DataObj) : DataObj :=
  { d with values := List.replicate d.values.length 0 }

/-- Zero the values buffer of the data object with the given ID. -/
def zeroData (datas : List DataObj) (dataID : Nat) : List DataObj :=
  datas.map fun d => if d.id == dataID then zeroValues d else d

/-- Guard of the dispatcher's compute loop: the timing matches "now"
(`timing == ON_ADVANCE || timing == INITIAL`) and the mapping has not been
computed yet. -/
def needsCompute (mc : MappingContext) : Bool :=
  (mc.timing == Timing.onAdvance || mc.timing == Timing.initial)
    && !mc.hasComputedMapping

/-- Compute phase of the mapping dispatcher (first loop of
`mapWrittenData` / `mapReadData`): compute every not-yet-computed mapping
whose timing matches; one compute event per computed context, in context
order. -/
def computeMappingsPhase (mk : Nat → Event) (mcs : List MappingContext) :
    List MappingContext × List Event :=
  (mcs.map fun mc =>
     if needsCompute mc then { mc with hasComputedMapping := true } else mc,
   (mcs.enum.filter fun p => needsCompute p.2).map fun p => mk p.1)

/-- Guard of the dispatcher's map loop: the data context carries a mapping
(`mapping.get() != nullptr`), its timing matches, and the shared mapping
context's `hasMappedData` flag is unset.  The source reads these flags here
but never writes them inside the dispatch. -/
def dueForMapping (mcs : List MappingContext) (dc : DataCtx) : Bool :=
  match dc.mappingIdx with
  | none => false
  | some i =>
    match mcs.get? i with
    | none => false
    | some mc =>
      (mc.timing == Timing.onAdvance || mc.timing == Timing.initial)
        && !mc.hasMappedData

/-- Map phase of the mapping dispatcher (second loop of `mapWrittenData` /
`mapReadData`): for each due data context, zero the target buffer and apply
`map(fromData.id, toData.id)`.  The interpolation kernel is an external
collaborator (spec section 1), so its write into the target buffer is
recorded as an event and the model keeps the zeroed buffer. -/
def mapDataPhase (mk : Nat → Nat → Event) (mcs : List MappingContext)
    (dcs : List DataCtx) (datas : List DataObj) : List DataObj × List Event :=
  match dcs with
  | [] => (datas, [])
  | dc :: rest =>
    if dueForMapping mcs dc then
      let r := mapDataPhase mk mcs rest (zeroData datas dc.toDataID)
      (r.1, mk dc.fromDataID dc.toDataID :: r.2)
    else mapDataPhase mk mcs rest datas

/-- Clear phase of the mapping dispatcher (third loop of `mapWrittenData` /
`mapReadData`): non-stationary (that is, non-INITIAL) mappings are cleared,
releasing the computed operator; the `hasMappedData` flag of EVERY context -
the assignment sits outside the `if` in the source - is reset to false. -/
def clearMappingsPhase (mk : Nat → Event) (mcs : List MappingContext) :
    List MappingContext × List Event :=
  (mcs.map fun mc =>
     if mc.timing == Timing.initial then { mc with hasMappedData := false }
     else { mc with hasComputedMapping := false, hasMappedData := false },
   (mcs.enum.filter fun p => p.2.timing != Timing.initial).map fun p => mk p.1)

/-- Write-side mapping dispatch `SolverInterfaceImpl::mapWrittenData`. -/
def mapWrittenData {σ : Type} (s : SIState σ) : SIState σ :=
  let c := computeMappingsPhase Event.computeWriteMapping s.writeMappingCtxs
  let m := mapDataPhase Event.mapWriteData c.1 s.writeDataCtxs s.datas
  let k := clearMappingsPhase Event.clearWriteMapping c.1
  { s with writeMappingCtxs := k.1, datas := m.1,
           events := s.events ++ c.2 ++ m.2 ++ k.2 }

/-- Read-side mapping dispatch `SolverInterfaceImpl::mapReadData`. -/
def mapReadData {σ : Type} (s : SIState σ) : SIState σ :=
  let c := computeMappingsPhase Event.computeReadMapping s.readMappingCtxs
  let m := mapDataPhase Event.mapReadDataEvt c.1 s.readDataCtxs s.datas
  let k := clearMappingsPhase Event.clearReadMapping c.1
  { s with readMappingCtxs := k.1, datas := m.1,
           events := s.events ++ c.2 ++ m.2 ++ k.2 }

/-- Modelled from the spec: `Mesh::allocateDataValues` maintains the
invariant `values.size() == vertexCount * dataDimensionality` (spec
section 3); existing entries are kept, new ones zero-filled. -/
def resizeValues (v : List ℚ) (n : Nat) : List ℚ :=
  v.take n ++ List.replicate (n - v.length) 0

/-- Re-allocate the values buffers of all data carried by one mesh, for the
given vertex count. -/
def allocateDataValues {σ : Type} (s : SIState σ) (meshID : Nat)
    (count : Nat) : SIState σ :=
  { s with datas := s.datas.map fun d =>
      if d.meshId == meshID then
        { d with values := resizeValues d.values (count * d.dims) }
      else d }

/-- SolverInterfaceImpl::resetMesh: validate the ID, reject meshes whose
from- and to-timing are both INITIAL, reject meshes without any mapping,
then unlock exactly this mesh and clear its geometry. -/
def resetMesh {σ : Type} (s : SIState σ) (meshID : Nat) :
    Except ErrorKind (SIState σ) :=
  if !validMeshID s meshID then .error .usageError
  else
    match findMesh s meshID with
    | none => .error .internalError
    | some c =>
      let hasMapping := c.hasFromMapping || c.hasToMapping
      let isStationary :=
        c.fromTiming == Timing.initial && c.toTiming == Timing.initial
      if isStationary then .error .usageError
      else if !hasMapping then .error .usageError
      else .ok { s with
        meshLock := unlockMesh s.meshLock meshID,
        meshes := s.meshes.map fun mc =>
          if mc.id == meshID then { mc with vertices := [] } else mc }

/-- SolverInterfaceImpl::setMeshVertex: requires modify access (mesh known
and unlocked), creates the vertex (its ID is the previous vertex count),
re-allocates the mesh's data buffers, and returns the new vertex ID. -/
def setMeshVertex {σ : Type} (s : SIState σ) (meshID : Nat)
    (position : List ℚ) : Except ErrorKind (SIState σ × Nat) :=
  match requireMeshModify s meshID with
  | .error e => .error e
  | .ok _ =>
    match findMesh s meshID with
    | none => .error .internalError
    | some c =>
      let index := c.vertices.length
      let s1 := { s with meshes := s.meshes.map fun mc =>
          if mc.id == meshID then { mc with vertices := mc.vertices ++ [position] }
          else mc }
      .ok (allocateDataValues s1 meshID (index + 1), index)

/-- Ordering of mesh contexts by mesh name, used by `computePartitions` for
the communicate pass.  Mesh names are unique (they key the facade's mesh-ID
table), so `std::sort` under this order is order-equivalent to the stable
insertion sort used here. -/
def nameLe (a b : MeshCtx) : Prop := a.name ≤ b.name

instance : DecidableRel nameLe := fun a b =>
  inferInstanceAs (Decidable (a.name ≤ b.name))

instance : IsTotal MeshCtx nameLe := ⟨fun a b => le_total a.name b.name⟩

instance : IsTrans MeshCtx nameLe := ⟨fun _ _ _ h h2 => le_trans h h2⟩

/-- SolverInterfaceImpl::computePartitions: sort the used-mesh contexts by
name; first pass communicates every partition in that order; then provided
meshes are stably moved to the front (`std::stable_partition`, modelled as
filter-filter concatenation); second pass computes every partition in the
new order, recomputes mesh state and re-allocates data buffers. -/
def computePartitions {σ : Type} (s : SIState σ) : SIState σ :=
  let sorted := List.insertionSort nameLe s.meshes
  let commEvents := sorted.map fun c => Event.communicateMesh c.name
  let parted := sorted.filter (fun c => c.provideMesh)
      ++ sorted.filter (fun c => !c.provideMesh)
  let compEvents := parted.map fun c => Event.computeMesh c.name
  let s1 := { s with meshes := parted,
                     events := s.events ++ commEvents ++ compEvents }
  parted.foldl (fun acc c => allocateDataValues acc c.id c.vertices.length) s1

/-- SolverInterfaceImpl::syncTimestep: slaves send their computed timestep
length to the master; the master receives each slave's value (ranks 1 to
size-1) and checks tolerant equality against its own; a mismatch fails
(`ProtocolError` per spec section 7: inter-rank inconsistency). -/
def syncTimestep {σ : Type} (s : SIState σ) (dt : ℚ) : Except ErrorKind Unit :=
  if s.isSlave then .ok ()
  else if s.isMaster then
    if s.slaveDts.all fun d => mathEquals d dt then .ok ()
    else .error .protocolError
  else .error .internalError

/-- SolverInterfaceImpl::advance.  The timestep synchronization sits in an
`ifndef NDEBUG` block in the source: it runs only when `NDEBUG` is undefined
(assertions enabled) and the participant runs in master-slave mode. -/
def advance {σ : Type} (ops : SchemeOps σ) (s : SIState σ) (dt : ℚ) :
    Except ErrorKind (SIState σ × ℚ) :=
  if !ops.isInitialized s.scheme then .error .stateError
  else if !ops.isCouplingOngoing s.scheme then .error .stateError
  else
    let s0 := { s with numberAdvanceCalls := s.numberAdvanceCalls + 1 }
    let syncStep : Except ErrorKind (SIState σ) :=
      if !s0.ndebugDefined && (s0.isMaster || s0.isSlave) then
        match syncTimestep s0 dt with
        | .error e => .error e
        | .ok _ => .ok { s0 with events := s0.events ++ [Event.syncTimestep dt] }
      else .ok s0
    match syncStep with
    | .error e => .error e
    | .ok s1 =>
      let s2 := { s1 with scheme := ops.addComputedTime s1.scheme dt,
                          events := s1.events ++ [Event.schemeAddComputedTime dt] }
      let timestepLength :=
        if ops.hasTimestepLength s2.scheme then ops.getTimestepLength s2.scheme
        else dt
      let timestepPart := timestepLength - ops.getThisTimestepRemainder s2.scheme
      let time := ops.getTime s2.scheme
      let s3 := mapWrittenData s2
      let preTimings := [ActionTiming.alwaysPrior] ++
        (if ops.willDataBeExchanged s3.scheme 0 then [ActionTiming.onExchangePrior]
         else [])
      let s4 := { s3 with events := s3.events ++
          [Event.dataActions preTimings time dt timestepPart timestepLength] }
      let s5 := { s4 with scheme := ops.advanceScheme s4.scheme,
                          events := s4.events ++ [Event.schemeAdvance] }
      let postTimings := [ActionTiming.alwaysPost] ++
        (if ops.hasDataBeenExchanged s5.scheme then [ActionTiming.onExchangePost]
         else []) ++
        (if ops.isCouplingTimestepComplete s5.scheme then
          [ActionTiming.onTimestepCompletePost]
         else [])
      let s6 := { s5 with events := s5.events ++
          [Event.dataActions postTimings time dt timestepPart timestepLength] }
      let s7 := if ops.hasDataBeenExchanged s6.scheme then mapReadData s6 else s6
      let s8 := { s7 with events := s7.events ++ [Event.handleExportsEvt] }
      let s9 := { s8 with meshLock := lockAll s8.meshLock,
                          events := s8.events ++ [Event.lockAllEvt] }
      .ok (s9, ops.getNextTimestepMaxLength s9.scheme)

/-- SolverInterfaceImpl::initialize: connect masters, compute partitions,
connect slaves, initialize watchpoints, initialize the coupling scheme at
time 0 / time window 1, run the read-side dispatch when initial data was
exchanged, fire the post data actions, lock all meshes and return the first
time-window budget.  There is no already-initialized check in the source. -/
def initializePhase {σ : Type} (ops : SchemeOps σ) (s : SIState σ) :
    Except ErrorKind (SIState σ × ℚ) :=
  let s1 := { s with events := s.events ++
      (s.m2ns.map fun (m : M2NCtx) => Event.connectMasters m.remoteName) }
  let s2 := computePartitions s1
  let s3 := { s2 with events := s2.events ++
      (s2.m2ns.map fun (m : M2NCtx) => Event.connectSlaves m.remoteName) }
  let s4 := { s3 with events := s3.events ++ [Event.initWatchpoints] }
  let s5 := { s4 with scheme := ops.initializeScheme s4.scheme 0 1,
                      events := s4.events ++ [Event.schemeInit 0 1] }
  let dt := ops.getNextTimestepMaxLength s5.scheme
  let exchanged := ops.hasDataBeenExchanged s5.scheme
  let s6 := if exchanged then mapReadData s5 else s5
  let timings := [ActionTiming.alwaysPost] ++
    (if exchanged then [ActionTiming.onExchangePost] else [])
  let s7 := { s6 with events := s6.events ++ [Event.dataActions timings 0 0 0 dt] }
  let s8 := { s7 with meshLock := lockAll s7.meshLock,
                      events := s7.events ++ [Event.lockAllEvt] }
  .ok (s8, ops.getNextTimestepMaxLength s8.scheme)

/-- Per-channel finalize trace: the ping/pong drain (performed on non-slave
ranks; the requesting side sends "ping" and then receives "pong", the
accepting side receives "ping" and then sends "pong") followed by closing
that channel. -/
def channelCloseTrace (slave : Bool) (m : M2NCtx) : List Event :=
  (if !slave then
     (if m.isRequesting then [Event.sendPing m.remoteName, Event.recvPong m.remoteName]
      else [Event.recvPing m.remoteName, Event.sendPong m.remoteName])
   else []) ++ [Event.closeM2N m.remoteName]

/-- SolverInterfaceImpl::finalize: scheme finalize, final exports, then per
inter-participant channel the ping/pong drain followed by closing that
channel, and only afterwards closing the intra-participant master-slave
channel (present only in master-slave mode). -/
def finalizeSI {σ : Type} (ops : SchemeOps σ) (s : SIState σ) :
    Except ErrorKind (SIState σ) :=
  if !ops.isInitialized s.scheme then .error .stateError
  else
    let s1 := { s with scheme := ops.finalizeScheme s.scheme,
                       events := s.events ++ [Event.schemeFinalize] }
    let s2 := { s1 with events := s1.events ++ [Event.finalExports] }
    let s3 := { s2 with events := s2.events ++
        (s2.m2ns.map (channelCloseTrace s2.isSlave)).flatten }
    let s4 := if s3.isSlave || s3.isMaster then
        { s3 with events := s3.events ++ [Event.closeMasterSlave] }
      else s3
    .ok s4

/-- Overwrite entries of a buffer starting at `offset` with the given
values (the element assignments of the data write loops; the length is
preserved whenever `offset + vals.length` is within the buffer, which the
source's range checks guarantee). -/
def writeSlice (buffer : List ℚ) (offset : Nat) (vals : List ℚ) : List ℚ :=
  buffer.take offset ++ vals ++ buffer.drop (offset + vals.length)

/-- Replace the values buffer of the data object with the given ID. -/
def updateData {σ : Type} (s : SIState σ) (dataID : Nat) (newValues : List ℚ) :
    SIState σ :=
  { s with datas := s.datas.map fun d =>
      if d.id == dataID then { d with values := newValues } else d }

/-- Modelled from the spec: `PRECICE_REQUIRE_DATA_WRITE` (macro header not in
the sources; spec section 4.2: a write operation checks that the participant
writes that data, violations give `UsageError`); the source then fetches the
accessor's matching write-data context. -/
def findWriteCtx {σ : Type} (s : SIState σ) (dataID : Nat) : Option DataCtx :=
  s.writeDataCtxs.find? fun dc => dc.fromDataID == dataID

/-- Modelled from the spec: `PRECICE_REQUIRE_DATA_READ` (macro header not in
the sources; spec section 4.2: a read operation checks that the participant
reads that data, violations give `UsageError`); the source then fetches the
accessor's matching read-data context. -/
def findReadCtx {σ : Type} (s : SIState σ) (dataID : Nat) : Option DataCtx :=
  s.readDataCtxs.find? fun dc => dc.toDataID == dataID

/-- SolverInterfaceImpl::writeVectorData: validate the data ID, require
write access, reject scalar data (`dims != _dimensions` gives `UsageError`),
range-check the vertex index against `values.size() / dims`, then write the
`_dimensions` entries at `valueIndex * _dimensions`. -/
def writeVectorData {σ : Type} (s : SIState σ) (fromDataID : Nat)
    (valueIndex : Int) (value : List ℚ) : Except ErrorKind (SIState σ) :=
  if !validDataID s fromDataID then .error .usageError
  else match findWriteCtx s fromDataID with
  | none => .error .usageError
  | some ctx =>
    match findData s ctx.fromDataID with
    | none => .error .internalError
    | some fd =>
      if !(fd.dims == s.dimensions) then .error .usageError
      else if 0 ≤ valueIndex ∧ valueIndex < (fd.values.length : Int) / (fd.dims : Int) then
        .ok (updateData s fd.id
          (writeSlice fd.values (valueIndex.toNat * s.dimensions) (value.take s.dimensions)))
      else .error .usageError

/-- SolverInterfaceImpl::writeScalarData: validate the data ID, check
`valueIndex >= -1`, require write access, reject vector data (`dims != 1`
gives `UsageError`), range-check, then write the entry. -/
def writeScalarData {σ : Type} (s : SIState σ) (fromDataID : Nat)
    (valueIndex : Int) (value : ℚ) : Except ErrorKind (SIState σ) :=
  if !validDataID s fromDataID then .error .usageError
  else if valueIndex < -1 then .error .usageError
  else match findWriteCtx s fromDataID with
  | none => .error .usageError
  | some ctx =>
    match findData s ctx.fromDataID with
    | none => .error .internalError
    | some fd =>
      if !(fd.dims == 1) then .error .usageError
      else if 0 ≤ valueIndex ∧ valueIndex < (fd.values.length : Int) / (fd.dims : Int) then
        .ok (updateData s fd.id (writeSlice fd.values valueIndex.toNat [value]))
      else .error .usageError

/-- Write loop of writeBlockVectorData: per block entry, range-check the
vertex index against the buffer size over the data dimensionality and write
`spaceDims` entries from the user's buffer; a failed check aborts the call
(errors are fatal per spec section 7, so the model drops the partial writes
of an aborted call). -/
def blockWriteVecLoop (spaceDims dataDims : Nat) :
    List ℚ → List (Nat × Int) → List ℚ → Except ErrorKind (List ℚ)
  | buf, [], _ => .ok buf
  | buf, (i, vi) :: rest, userVals =>
    if 0 ≤ vi ∧ vi < (buf.length : Int) / (dataDims : Int) then
      blockWriteVecLoop spaceDims dataDims
        (writeSlice buf (vi.toNat * spaceDims) ((userVals.drop (i * spaceDims)).take spaceDims))
        rest userVals
    else .error .usageError

/-- SolverInterfaceImpl::writeBlockVectorData: validate the data ID; a size
of zero returns immediately (before the write-access requirement); otherwise
require write access, reject scalar data, and run the write loop. -/
def writeBlockVectorData {σ : Type} (s : SIState σ) (fromDataID : Nat)
    (valueIndices : List Int) (values : List ℚ) : Except ErrorKind (SIState σ) :=
  if !validDataID s fromDataID then .error .usageError
  else if valueIndices.length == 0 then .ok s
  else match findWriteCtx s fromDataID with
  | none => .error .usageError
  | some ctx =>
    match findData s ctx.fromDataID with
    | none => .error .internalError
    | some fd =>
      if !(fd.dims == s.dimensions) then .error .usageError
      else match blockWriteVecLoop s.dimensions fd.dims fd.values valueIndices.enum values with
        | .error e => .error e
        | .ok buf => .ok (updateData s fd.id buf)

/-- Write loop of writeBlockScalarData: per block entry, range-check the
vertex index and write one entry from the user's buffer. -/
def blockWriteScalLoop :
    List ℚ → List (Nat × Int) → List ℚ → Except ErrorKind (List ℚ)
  | buf, [], _ => .ok buf
  | buf, (i, vi) :: rest, userVals =>
    if 0 ≤ vi ∧ vi < (buf.length : Int) then
      blockWriteScalLoop
        (writeSlice buf vi.toNat ((userVals.drop i).take 1)) rest userVals
    else .error .usageError

/-- SolverInterfaceImpl::writeBlockScalarData: validate the data ID; a size
of zero returns immediately (before the write-access requirement); otherwise
require write access, reject vector data, and run the write loop. -/
def writeBlockScalarData {σ : Type} (s : SIState σ) (fromDataID : Nat)
    (valueIndices : List Int) (values : List ℚ) : Except ErrorKind (SIState σ) :=
  if !validDataID s fromDataID then .error .usageError
  else if valueIndices.length == 0 then .ok s
  else match findWriteCtx s fromDataID with
  | none => .error .usageError
  | some ctx =>
    match findData s ctx.fromDataID with
    | none => .error .internalError
    | some fd =>
      if !(fd.dims == 1) then .error .usageError
      else match blockWriteScalLoop fd.values valueIndices.enum values with
        | .error e => .error e
        | .ok buf => .ok (updateData s fd.id buf)

/-- SolverInterfaceImpl::readVectorData: validate the data ID, check
`valueIndex >= -1`, require read access, reject scalar data, range-check the
index (the source divides the target buffer's size by the SOURCE data's
dimensionality here), then return the `_dimensions` entries. -/
def readVectorData {σ : Type} (s : SIState σ) (toDataID : Nat)
    (valueIndex : Int) : Except ErrorKind (List ℚ) :=
  if !validDataID s toDataID then .error .usageError
  else if valueIndex < -1 then .error .usageError
  else match findReadCtx s toDataID with
  | none => .error .usageError
  | some ctx =>
    match findData s ctx.toDataID, findData s ctx.fromDataID with
    | some td, some fd =>
      if !(td.dims == s.dimensions) then .error .usageError
      else if 0 ≤ valueIndex ∧ valueIndex < (td.values.length : Int) / (fd.dims : Int) then
        .ok ((td.values.drop (valueIndex.toNat * s.dimensions)).take s.dimensions)
      else .error .usageError
    | _, _ => .error .internalError

/-- SolverInterfaceImpl::readScalarData: validate the data ID, check
`valueIndex >= -1`, require read access, reject vector data, range-check the
index against the buffer size, then return the entry. -/
def readScalarData {σ : Type} (s : SIState σ) (toDataID : Nat)
    (valueIndex : Int) : Except ErrorKind ℚ :=
  if !validDataID s toDataID then .error .usageError
  else if valueIndex < -1 then .error .usageError
  else match findReadCtx s toDataID with
  | none => .error .usageError
  | some ctx =>
    match findData s ctx.toDataID with
    | none => .error .internalError
    | some td =>
      if !(td.dims == 1) then .error .usageError
      else if 0 ≤ valueIndex ∧ valueIndex < (td.values.length : Int) then
        match td.values.get? valueIndex.toNat with
        | some v => .ok v
        | none => .error .internalError
      else .error .usageError

/-- Read loop of readBlockVectorData: per block entry, range-check the
vertex index (the source divides the target buffer's size by the SOURCE
data's dimensionality) and copy `spaceDims` entries into the output. -/
def readBlockVecLoop (spaceDims dataFromDims : Nat) (buf : List ℚ) :
    List Int → Except ErrorKind (List ℚ)
  | [] => .ok []
  | vi :: rest =>
    if 0 ≤ vi ∧ vi < (buf.length : Int) / (dataFromDims : Int) then
      match readBlockVecLoop spaceDims dataFromDims buf rest with
      | .error e => .error e
      | .ok out => .ok ((buf.drop (vi.toNat * spaceDims)).take spaceDims ++ out)
    else .error .usageError

/-- SolverInterfaceImpl::readBlockVectorData: validate the data ID; a size
of zero returns immediately (before the read-access requirement); otherwise
require read access, reject scalar data, and run the read loop. -/
def readBlockVectorData {σ : Type} (s : SIState σ) (toDataID : Nat)
    (valueIndices : List Int) : Except ErrorKind (List ℚ) :=
  if !validDataID s toDataID then .error .usageError
  else if valueIndices.length == 0 then .ok []
  else match findReadCtx s toDataID with
  | none => .error .usageError
  | some ctx =>
    match findData s ctx.toDataID, findData s ctx.fromDataID with
    | some td, some fd =>
      if !(td.dims == s.dimensions) then .error .usageError
      else readBlockVecLoop s.dimensions fd.dims td.values valueIndices
    | _, _ => .error .internalError

/-- Read loop of readBlockScalarData: per block entry, range-check the
vertex index against the buffer size and copy one entry into the output. -/
def readBlockScalLoop (buf : List ℚ) : List Int → Except ErrorKind (List ℚ)
  | [] => .ok []
  | vi :: rest =>
    if 0 ≤ vi ∧ vi < (buf.length : Int) then
      match readBlockScalLoop buf rest with
      | .error e => .error e
      | .ok out => .ok ((buf.drop vi.toNat).take 1 ++ out)
    else .error .usageError

/-- SolverInterfaceImpl::readBlockScalarData: validate the data ID; a size
of zero returns immediately (before the read-access requirement); otherwise
require read access, reject vector data, and run the read loop. -/
def readBlockScalarData {σ : Type} (s : SIState σ) (toDataID : Nat)
    (valueIndices : List Int) : Except ErrorKind (List ℚ) :=
  if !validDataID s toDataID then .error .usageError
  else if valueIndices.length == 0 then .ok []
  else match findReadCtx s toDataID with
  | none => .error .usageError
  | some ctx =>
    match findData s ctx.toDataID with
    | none => .error .internalError
    | some td =>
      if !(td.dims == 1) then .error .usageError
      else readBlockScalLoop td.values valueIndices

deriving instance DecidableEq for Except

/-- State of a successful facade call returning a state/budget pair. -/
def okSt {σ : Type} (r : Except ErrorKind (SIState σ × ℚ)) :
    Option (SIState σ) :=
  r.toOption.map Prod.fst

/-- Shape of a mapping context after a full dispatch run: the timing is
kept, the operator is computed exactly for INITIAL timings (ON_ADVANCE ones
were cleared at the end of the run), and `hasMappedData` is false. -/
def clearedCtx (mc : MappingContext) : MappingContext :=
  { timing := mc.timing,
    hasComputedMapping := mc.timing == Timing.initial,
    hasMappedData := false }

/-- Zero a data object when some due data context targets it. -/
def zeroIfDue (mcs : List MappingContext) (dcs : List DataCtx)
    (d : DataObj) : DataObj :=
  if dcs.any (fun dc => dueForMapping mcs dc && d.id == dc.toDataID) then
    zeroValues d
  else d

/-- Events emitted by one dispatch run, as a function of the contexts it
visits: compute events for the not-yet-computed mappings with matching
timing, one map event per due data context (in context order), and clear
events for the non-INITIAL mappings. -/
def dispatchEvents (mkC : Nat → Event) (mkM : Nat → Nat → Event)
    (mkX : Nat → Event) (mcs : List MappingContext) (dcs : List DataCtx) :
    List Event :=
  ((mcs.enum.filter fun p => needsCompute p.2).map fun p => mkC p.1)
  ++ ((dcs.filter (dueForMapping mcs)).map fun dc => mkM dc.fromDataID dc.toDataID)
  ++ ((mcs.enum.filter fun p => p.2.timing != Timing.initial).map fun p => mkX p.1)

/-- Claim-side synchronization step (claim C1/C2 as stated): on every
`advance` call the timestep is synchronized across the participant's ranks -
slaves send, the master verifies tolerant equality of every slave's value
against its own and fails with `ProtocolError` on mismatch; a single-rank
participant has nothing to synchronize. -/
def specSync {σ : Type} (s : SIState σ) (dt : ℚ) :
    Except ErrorKind (SIState σ) :=
  if s.isMaster || s.isSlave then
    match syncTimestep s dt with
    | .error e => .error e
    | .ok _ => .ok { s with events := s.events ++ [Event.syncTimestep dt] }
  else .ok s

/-- Claim C1 as stated: under the preconditions, `advance` performs exactly
the claimed sequence, beginning with an UNCONDITIONAL timestep
synchronization (the source compiles that step only when `NDEBUG` is
undefined, which this definition deliberately omits - it follows the
claim's words, to be compared against `advance`). -/
def specAdvanceOrig {σ : Type} (ops : SchemeOps σ) (s : SIState σ) (dt : ℚ) :
    Except ErrorKind (SIState σ × ℚ) :=
  if !ops.isInitialized s.scheme then .error .stateError
  else if !ops.isCouplingOngoing s.scheme then .error .stateError
  else
    let s0 := { s with numberAdvanceCalls := s.numberAdvanceCalls + 1 }
    match specSync s0 dt with
    | .error e => .error e
    | .ok s1 =>
      let s2 := { s1 with scheme := ops.addComputedTime s1.scheme dt,
                          events := s1.events ++ [Event.schemeAddComputedTime dt] }
      let timestepLength :=
        if ops.hasTimestepLength s2.scheme then ops.getTimestepLength s2.scheme
        else dt
      let timestepPart := timestepLength - ops.getThisTimestepRemainder s2.scheme
      let time := ops.getTime s2.scheme
      let s3 := mapWrittenData s2
      let preTimings := [ActionTiming.alwaysPrior] ++
        (if ops.willDataBeExchanged s3.scheme 0 then [ActionTiming.onExchangePrior]
         else [])
      let s4 := { s3 with events := s3.events ++
          [Event.dataActions preTimings time dt timestepPart timestepLength] }
      let s5 := { s4 with scheme := ops.advanceScheme s4.scheme,
                          events := s4.events ++ [Event.schemeAdvance] }
      let postTimings := [ActionTiming.alwaysPost] ++
        (if ops.hasDataBeenExchanged s5.scheme then [ActionTiming.onExchangePost]
         else []) ++
        (if ops.isCouplingTimestepComplete s5.scheme then
          [ActionTiming.onTimestepCompletePost]
         else [])
      let s6 := { s5 with events := s5.events ++
          [Event.dataActions postTimings time dt timestepPart timestepLength] }
      let s7 := if ops.hasDataBeenExchanged s6.scheme then mapReadData s6 else s6
      let s8 := { s7 with events := s7.events ++ [Event.handleExportsEvt] }
      let s9 := { s8 with meshLock := lockAll s8.meshLock,
                          events := s8.events ++ [Event.lockAllEvt] }
      .ok (s9, ops.getNextTimestepMaxLength s9.scheme)

/-- Map phase as claimed (claim C3 as stated): after zeroing the target and
applying the mapping, the shared mapping context's `hasMappedData` flag is
marked, so a later data context carrying the same mapping is skipped.  This
definition follows the claim's words, to be compared against the
`mapDataPhase` embedded from the source (which never writes the flag). -/
def specMapDataPhase (mk : Nat → Nat → Event) (mcs : List MappingContext)
    (dcs : List DataCtx) (datas : List DataObj) :
    List MappingContext × List DataObj × List Event :=
  match dcs with
  | [] => (mcs, datas, [])
  | dc :: rest =>
    if dueForMapping mcs dc then
      let mcs1 := match dc.mappingIdx, dc.mappingIdx.bind mcs.get? with
        | some i, some mc => mcs.set i { mc with hasMappedData := true }
        | _, _ => mcs
      let r := specMapDataPhase mk mcs1 rest (zeroData datas dc.toDataID)
      (r.1, r.2.1, mk dc.fromDataID dc.toDataID :: r.2.2)
    else specMapDataPhase mk mcs rest datas

/-- Clear phase as claimed (claim C3 as stated): only ON_ADVANCE contexts
are cleared and have their `hasMappedData` flag reset (the source resets the
flag of every context). -/
def specClearPhase (mk : Nat → Event) (mcs : List MappingContext) :
    List MappingContext × List Event :=
  (mcs.map fun mc =>
     if mc.timing == Timing.onAdvance then
       { mc with hasComputedMapping := false, hasMappedData := false }
     else mc,
   (mcs.enum.filter fun p => p.2.timing == Timing.onAdvance).map fun p => mk p.1)

/-- Read-side dispatch as claimed by C3, assembled from the claim-side map
and clear phases (the compute phase is as in the source). -/
def specMapRead {σ : Type} (s : SIState σ) : SIState σ :=
  let c := computeMappingsPhase Event.computeReadMapping s.readMappingCtxs
  let m := specMapDataPhase Event.mapReadDataEvt c.1 s.readDataCtxs s.datas
  let k := specClearPhase Event.clearReadMapping m.1
  { s with readMappingCtxs := k.1, datas := m.2.1,
           events := s.events ++ c.2 ++ m.2.2 ++ k.2 }

/-- Stable partition moving the elements satisfying the predicate to the
front (`std::stable_partition`). -/
def provFront (l : List MeshCtx) : List MeshCtx :=
  l.filter (fun c => c.provideMesh) ++ l.filter (fun c => !c.provideMesh)

/-- Recognizer for communicate-pass events. -/
def isCommEvent : Event → Bool
  | .communicateMesh _ => true
  | _ => false

/-- Recognizer for compute-pass events. -/
def isCompEvent : Event → Bool
  | .computeMesh _ => true
  | _ => false

/-- API calls relevant to the mesh-lock state machine. -/
inductive ApiCall where
  | advanceCall (dt : ℚ)
  | resetCall (m : Nat)
  | setVertexCall (m : Nat) (pos : List ℚ)
deriving DecidableEq

/-- One step of the embedding program: a failed call surfaces its error to
the caller and leaves the facade state untouched. -/
def stepCall {σ : Type} (ops : SchemeOps σ) (s : SIState σ) :
    ApiCall → SIState σ
  | .advanceCall dt =>
    match advance ops s dt with
    | .ok p => p.1
    | .error _ => s
  | .resetCall m =>
    match resetMesh s m with
    | .ok s1 => s1
    | .error _ => s
  | .setVertexCall m pos =>
    match setMeshVertex s m pos with
    | .ok p => p.1
    | .error _ => s

/-- Run a sequence of API calls. -/
def runCalls {σ : Type} (ops : SchemeOps σ) (s : SIState σ) :
    List ApiCall → SIState σ
  | [] => s
  | c :: cs => runCalls ops (stepCall ops s c) cs

/-- Minimal concrete coupling-scheme state used to instantiate the abstract
scheme interface in witnesses. -/
structure TestScheme where
  initialized : Bool
  ongoing : Bool
  exchanged : Bool
  complete : Bool
  time : ℚ
  steps : Int
deriving DecidableEq

/-- Concrete instantiation of the scheme interface for witnesses. -/
def testOps : SchemeOps TestScheme where
  isInitialized := TestScheme.initialized
  isCouplingOngoing := TestScheme.ongoing
  hasDataBeenExchanged := TestScheme.exchanged
  willDataBeExchanged := fun st _ => st.exchanged
  isCouplingTimestepComplete := TestScheme.complete
  hasTimestepLength := fun _ => true
  getTimestepLength := fun _ => 1
  getThisTimestepRemainder := fun _ => 0
  getTime := TestScheme.time
  getNextTimestepMaxLength := fun _ => 1
  getTimesteps := TestScheme.steps
  initializeScheme := fun st t tw => { st with initialized := true, time := t, steps := tw }
  addComputedTime := fun st d => { st with time := st.time + d }
  advanceScheme := fun st => { st with steps := st.steps + 1 }
  finalizeScheme := fun st => st

/-- Base concrete facade state for witnesses: a serial participant with an
initialized, ongoing scheme and nothing registered. -/
def baseState : SIState TestScheme where
  scheme := { initialized := true, ongoing := true, exchanged := false,
              complete := false, time := 0, steps := 1 }
  dimensions := 2
  isMaster := false
  isSlave := false
  ndebugDefined := false
  slaveDts := []
  meshLock := []
  meshes := []
  m2ns := []
  readMappingCtxs := []
  writeMappingCtxs := []
  readDataCtxs := []
  writeDataCtxs := []
  datas := []
  numberAdvanceCalls := 0
  events := []

/-- State of a facade call when it succeeded, the pre-state otherwise
(errors are fatal to the embedding program, spec section 7). -/
def okFst {σ : Type} (dflt : SIState σ) (r : Except ErrorKind (SIState σ × ℚ)) :
    SIState σ :=
  (okSt r).getD dflt

/-- Provided-mesh fixture with a non-stationary from-mapping. -/
def meshA : MeshCtx :=
  { id := 0, name := [65], provideMesh := true, hasFromMapping := true,
    hasToMapping := false, fromTiming := Timing.onAdvance,
    toTiming := Timing.initial, vertices := [[1, 2]] }

/-- Received-mesh fixture with a non-stationary to-mapping. -/
def meshB : MeshCtx :=
  { id := 1, name := [66], provideMesh := false, hasFromMapping := false,
    hasToMapping := true, fromTiming := Timing.initial,
    toTiming := Timing.onAdvance, vertices := [[3, 4]] }

/-- Fixture with two registered, unlocked meshes (listed out of name order). -/
def twoMeshState : SIState TestScheme :=
  { baseState with meshes := [meshB, meshA],
                   meshLock := [(0, false), (1, false)] }

/-- Fixture with one registered, locked mesh carrying only INITIAL-timing
mapping contexts. -/
def stationaryMeshState : SIState TestScheme :=
  { baseState with
    meshes := [{ meshA with fromTiming := Timing.initial,
                            toTiming := Timing.initial }],
    meshLock := [(0, true)] }

/-- Fixture with one registered, locked mesh whose from-mapping has
ON_ADVANCE timing (so the mesh may be reset). -/
def resettableMeshState : SIState TestScheme :=
  { baseState with meshes := [meshA], meshLock := [(0, true)] }

/-- Read-dispatch fixture for claim C3: one shared ON_ADVANCE mapping
context carried by two read data contexts (two data pairs on one mesh). -/
def sharedMappingState : SIState TestScheme :=
  { baseState with
    readMappingCtxs := [{ timing := Timing.onAdvance,
                          hasComputedMapping := false, hasMappedData := false }],
    readDataCtxs := [
      { meshId := 0, fromDataID := 10, toDataID := 11, mappingIdx := some 0 },
      { meshId := 0, fromDataID := 12, toDataID := 13, mappingIdx := some 0 }],
    datas := [
      { id := 10, meshId := 0, dims := 1, values := [1] },
      { id := 11, meshId := 0, dims := 1, values := [1] },
      { id := 12, meshId := 0, dims := 1, values := [1] },
      { id := 13, meshId := 0, dims := 1, values := [1] }] }

/-- Multi-rank master in a release build (NDEBUG defined): one slave
submitted 2 while the master computes timestep 1. -/
def releaseMismatchState : SIState TestScheme :=
  { baseState with isMaster := true, ndebugDefined := true, slaveDts := [2] }

/-- Multi-rank master in a release build (NDEBUG defined): two slaves
submitted 5 and 7 while the master computes timestep 1. -/
def releaseMismatchState2 : SIState TestScheme :=
  { baseState with isMaster := true, ndebugDefined := true, slaveDts := [5, 7] }

/-- Multi-rank master in a debug build (NDEBUG undefined): one slave
submitted 5 while the master computes timestep 1. -/
def debugMismatchState : SIState TestScheme :=
  { baseState with isMaster := true, ndebugDefined := false, slaveDts := [5] }

/-- Multi-rank master in a debug build (NDEBUG undefined): both slaves
submitted 1, matching the master's timestep 1. -/
def debugMatchState : SIState TestScheme :=
  { baseState with isMaster := true, ndebugDefined := false, slaveDts := [1, 1] }

/-- Scalar data fixture (dimensionality 1). -/
def scalarData : DataObj :=
  { id := 20, meshId := 0, dims := 1, values := [3, 4, 5] }

/-- Vector data fixture (dimensionality = space dimension 2). -/
def vectorData : DataObj :=
  { id := 21, meshId := 0, dims := 2, values := [1, 2, 3, 4, 5, 6] }

/-- Fixture with a scalar and vector data pair, readable and writable. -/
def dataState : SIState TestScheme :=
  { baseState with
    datas := [scalarData, vectorData],
    writeDataCtxs := [
      { meshId := 0, fromDataID := 20, toDataID := 20, mappingIdx := none },
      { meshId := 0, fromDataID := 21, toDataID := 21, mappingIdx := none }],
    readDataCtxs := [
      { meshId := 0, fromDataID := 20, toDataID := 20, mappingIdx := none },
      { meshId := 0, fromDataID := 21, toDataID := 21, mappingIdx := none }] }

/-- Fixture where both data IDs are valid but the participant has no read-
or write-data context for them. -/
def orphanDataState : SIState TestScheme :=
  { baseState with datas := [scalarData, vectorData] }

/-- Multi-rank master with one requesting and one accepting channel. -/
def finalizeState : SIState TestScheme :=
  { baseState with isMaster := true,
                   m2ns := [⟨"B", true⟩, ⟨"C", false⟩] }

/-- The event sequence claim C1 describes for one `advance` call, with the
synchronization step as amended: present exactly when the build has
assertions enabled (NDEBUG undefined) and the participant runs master-slave.
`timestepLength` (the scheme's fixed window size if set, else the computed
timestep), `timestepPart` (timestepLength minus the remainder) and `time`
are resolved against the scheme state after `addComputedTime`, as in the
source. -/
def advanceTrace {σ : Type} (ops : SchemeOps σ) (s : SIState σ) (dt : ℚ) :
    List Event :=
  let schemeAdd := ops.addComputedTime s.scheme dt
  let timestepLength :=
    if ops.hasTimestepLength schemeAdd then ops.getTimestepLength schemeAdd
    else dt
  let timestepPart := timestepLength - ops.getThisTimestepRemainder schemeAdd
  let time := ops.getTime schemeAdd
  let schemeAdv := ops.advanceScheme schemeAdd
  s.events
  ++ (if !s.ndebugDefined && (s.isMaster || s.isSlave) then
        [Event.syncTimestep dt]
      else [])
  ++ [Event.schemeAddComputedTime dt]
  ++ dispatchEvents Event.computeWriteMapping Event.mapWriteData
      Event.clearWriteMapping s.writeMappingCtxs s.writeDataCtxs
  ++ [Event.dataActions
        ([ActionTiming.alwaysPrior] ++
          (if ops.willDataBeExchanged schemeAdd 0 then
            [ActionTiming.onExchangePrior]
          else []))
        time dt timestepPart timestepLength]
  ++ [Event.schemeAdvance]
  ++ [Event.dataActions
        ([ActionTiming.alwaysPost] ++
          (if ops.hasDataBeenExchanged schemeAdv then
            [ActionTiming.onExchangePost]
          else []) ++
          (if ops.isCouplingTimestepComplete schemeAdv then
            [ActionTiming.onTimestepCompletePost]
          else []))
        time dt timestepPart timestepLength]
  ++ (if ops.hasDataBeenExchanged schemeAdv then
        dispatchEvents Event.computeReadMapping Event.mapReadDataEvt
          Event.clearReadMapping s.readMappingCtxs s.readDataCtxs
      else [])
  ++ [Event.handleExportsEvt, Event.lockAllEvt]

/-! ### Helper lemmas -/

/-- `mathEquals` agrees with the tolerance form used in the documentation:
two rationals are "equal" when their difference is within
`numericalZeroDifference` in absolute value. -/
theorem mathEquals_iff (a b : ℚ) :
    mathEquals a b = true ↔ |a - b| ≤ numericalZeroDifference := by
  unfold mathEquals numericalZeroDifference
  rw [decide_eq_true_iff]
  have hda : (0 : ℚ) < (a.den : ℚ) := by exact_mod_cast a.den_pos
  have hdb : (0 : ℚ) < (b.den : ℚ) := by exact_mod_cast b.den_pos
  have key : a - b = ((a.num * b.den - b.num * a.den : ℤ) : ℚ)
      / ((a.den : ℚ) * (b.den : ℚ)) := by
    conv_lhs => rw [← Rat.num_div_den a, ← Rat.num_div_den b]
    rw [div_sub_div _ _ (ne_of_gt hda) (ne_of_gt hdb)]
    push_cast
    ring_nf
  rw [key, abs_div, abs_of_pos (mul_pos hda hdb),
    div_le_div_iff₀ (mul_pos hda hdb) (by positivity : (0:ℚ) < 10 ^ 14)]
  rw [one_mul, ← Int.cast_abs, Int.abs_eq_natAbs]
  norm_cast

@[simp] theorem zeroValues_id (d : DataObj) : (zeroValues d).id = d.id := rfl

theorem zeroValues_zeroValues (d : DataObj) :
    zeroValues (zeroValues d) = zeroValues d := by
  simp [zeroValues]

theorem needsCompute_eq (mc : MappingContext) :
    needsCompute mc = !mc.hasComputedMapping := by
  cases mc with
  | mk t c m => cases t <;> simp [needsCompute]

theorem dueForMapping_computePhase (mk : Nat → Event)
    (mcs : List MappingContext) :
    dueForMapping (computeMappingsPhase mk mcs).1 = dueForMapping mcs := by
  funext dc
  unfold dueForMapping computeMappingsPhase
  cases dc.mappingIdx with
  | none => rfl
  | some i =>
    simp only [List.get?_map]
    cases h : mcs.get? i with
    | none => rfl
    | some mc =>
      simp only [Option.map_some']
      cases hb : needsCompute mc <;> simp

theorem mapDataPhase_events (mk : Nat → Nat → Event)
    (mcs : List MappingContext) (dcs : List DataCtx) (datas : List DataObj) :
    (mapDataPhase mk mcs dcs datas).2
      = (dcs.filter (dueForMapping mcs)).map
          fun dc => mk dc.fromDataID dc.toDataID := by
  induction dcs generalizing datas with
  | nil => simp [mapDataPhase]
  | cons dc rest ih =>
    cases h : dueForMapping mcs dc <;>
      simp [mapDataPhase, h, ih, List.filter_cons]

theorem mapDataPhase_datas (mk : Nat → Nat → Event)
    (mcs : List MappingContext) (dcs : List DataCtx) (datas : List DataObj) :
    (mapDataPhase mk mcs dcs datas).1 = datas.map fun d =>
      if dcs.any (fun dc => dueForMapping mcs dc && d.id == dc.toDataID) then
        zeroValues d
      else d := by
  induction dcs generalizing datas with
  | nil => simp [mapDataPhase]
  | cons dc rest ih =>
    cases h : dueForMapping mcs dc with
    | false =>
      simp only [mapDataPhase, h, Bool.false_eq_true, if_false, ih,
        List.any_cons, Bool.false_and, Bool.false_or]
    | true =>
      simp only [mapDataPhase, h, if_true, ih, zeroData, List.map_map]
      congr 1
      funext d
      simp only [Function.comp, List.any_cons, h, Bool.true_and, zeroValues_id]
      cases hid : (d.id == dc.toDataID) with
      | false =>
        simp only [hid, Bool.false_eq_true, if_false, Bool.false_or]
      | true =>
        simp only [hid, if_true, Bool.true_or]
        simp only [zeroValues_zeroValues, ite_self]

theorem clear_after_compute (mk mk2 : Nat → Event) (mcs : List MappingContext) :
    (clearMappingsPhase mk (computeMappingsPhase mk2 mcs).1).1
      = mcs.map clearedCtx := by
  unfold clearMappingsPhase computeMappingsPhase
  simp only [List.map_map]
  congr 1
  funext mc
  cases mc with
  | mk t c m => cases t <;> cases c <;> simp [Function.comp, needsCompute, clearedCtx]

theorem clearEvents_after_compute (mk mk2 : Nat → Event)
    (mcs : List MappingContext) :
    (clearMappingsPhase mk (computeMappingsPhase mk2 mcs).1).2
      = (mcs.enum.filter fun p => p.2.timing != Timing.initial).map
          fun p => mk p.1 := by
  unfold clearMappingsPhase computeMappingsPhase
  simp only [List.enum_map, List.filter_map, List.map_map]
  have h1 : List.filter
      ((fun p : Nat × MappingContext => p.2.timing != Timing.initial) ∘
        Prod.map id fun mc =>
          if needsCompute mc = true then { mc with hasComputedMapping := true }
          else mc)
      mcs.enum
      = List.filter (fun p : Nat × MappingContext => p.2.timing != Timing.initial)
          mcs.enum := by
    apply List.filter_congr
    intro p _
    cases hb : needsCompute p.2 <;> simp [Function.comp, Prod.map, hb]
  rw [h1]
  congr 1

theorem mapWrittenData_eq {σ : Type} (s : SIState σ) :
    mapWrittenData s = { s with
      writeMappingCtxs := s.writeMappingCtxs.map clearedCtx,
      datas := s.datas.map (zeroIfDue s.writeMappingCtxs s.writeDataCtxs),
      events := s.events ++ dispatchEvents Event.computeWriteMapping
        Event.mapWriteData Event.clearWriteMapping s.writeMappingCtxs
        s.writeDataCtxs } := by
  simp only [mapWrittenData, dispatchEvents]
  rw [clear_after_compute, clearEvents_after_compute, mapDataPhase_events,
    mapDataPhase_datas, dueForMapping_computePhase]
  simp only [computeMappingsPhase, List.append_assoc]
  rfl

theorem mapReadData_eq {σ : Type} (s : SIState σ) :
    mapReadData s = { s with
      readMappingCtxs := s.readMappingCtxs.map clearedCtx,
      datas := s.datas.map (zeroIfDue s.readMappingCtxs s.readDataCtxs),
      events := s.events ++ dispatchEvents Event.computeReadMapping
        Event.mapReadDataEvt Event.clearReadMapping s.readMappingCtxs
        s.readDataCtxs } := by
  simp only [mapReadData, dispatchEvents]
  rw [clear_after_compute, clearEvents_after_compute, mapDataPhase_events,
    mapDataPhase_datas, dueForMapping_computePhase]
  simp only [computeMappingsPhase, List.append_assoc]
  rfl

theorem allLocked_lockAll (l : List (Nat × Bool)) :
    allLocked (lockAll l) = true := by
  simp [allLocked, lockAll, List.all_map, Function.comp]

theorem lockCheck_lockAll (l : List (Nat × Bool)) (m : Nat) :
    lockCheck (lockAll l) m = true := by
  unfold lockCheck lockAll
  rw [List.find?_map]
  cases h : l.find? ((fun q : Nat × Bool => q.1 == m) ∘ fun p => (p.1, true)) with
  | none => rfl
  | some q => rfl

theorem lockCheck_unlockMesh_self (l : List (Nat × Bool)) (m : Nat)
    (hm : (l.any fun p => p.1 == m) = true) :
    lockCheck (unlockMesh l m) m = false := by
  unfold lockCheck unlockMesh
  rw [List.find?_map]
  have hcomp : ((fun q : Nat × Bool => q.1 == m) ∘
      fun p : Nat × Bool => if p.1 == m then (p.1, false) else p)
      = fun p : Nat × Bool => p.1 == m := by
    funext p
    cases hp : (p.1 == m) <;> simp [Function.comp, hp]
  rw [hcomp]
  have hsome : (l.find? fun p : Nat × Bool => p.1 == m).isSome := by
    rw [List.find?_isSome]
    rcases List.any_eq_true.mp hm with ⟨x, hx, hpx⟩
    exact ⟨x, hx, hpx⟩
  cases h : l.find? (fun p : Nat × Bool => p.1 == m) with
  | none => rw [h] at hsome; cases hsome
  | some q =>
    have hq : q.1 = m := by simpa using List.find?_some h
    simp [hq]

theorem lockCheck_unlockMesh_ne (l : List (Nat × Bool)) (m m' : Nat)
    (hne : ¬ m' = m) :
    lockCheck (unlockMesh l m) m' = lockCheck l m' := by
  unfold lockCheck unlockMesh
  rw [List.find?_map]
  have hcomp : ((fun q : Nat × Bool => q.1 == m') ∘
      fun p : Nat × Bool => if p.1 == m then (p.1, false) else p)
      = fun p : Nat × Bool => p.1 == m' := by
    funext p
    cases hp : (p.1 == m) <;> simp [Function.comp, hp]
  rw [hcomp]
  cases h : l.find? (fun p : Nat × Bool => p.1 == m') with
  | none => rfl
  | some q =>
    have hq' : q.1 = m' := by simpa using List.find?_some h
    simp [hq', hne]

@[simp] theorem mapWrittenData_scheme {σ : Type} (s : SIState σ) :
    (mapWrittenData s).scheme = s.scheme := by rw [mapWrittenData_eq]

@[simp] theorem mapWrittenData_meshLock {σ : Type} (s : SIState σ) :
    (mapWrittenData s).meshLock = s.meshLock := by rw [mapWrittenData_eq]

@[simp] theorem mapWrittenData_meshes {σ : Type} (s : SIState σ) :
    (mapWrittenData s).meshes = s.meshes := by rw [mapWrittenData_eq]

@[simp] theorem mapWrittenData_m2ns {σ : Type} (s : SIState σ) :
    (mapWrittenData s).m2ns = s.m2ns := by rw [mapWrittenData_eq]

@[simp] theorem mapWrittenData_readMappingCtxs {σ : Type} (s : SIState σ) :
    (mapWrittenData s).readMappingCtxs = s.readMappingCtxs := by
  rw [mapWrittenData_eq]

@[simp] theorem mapWrittenData_readDataCtxs {σ : Type} (s : SIState σ) :
    (mapWrittenData s).readDataCtxs = s.readDataCtxs := by
  rw [mapWrittenData_eq]

@[simp] theorem mapWrittenData_writeDataCtxs {σ : Type} (s : SIState σ) :
    (mapWrittenData s).writeDataCtxs = s.writeDataCtxs := by
  rw [mapWrittenData_eq]

@[simp] theorem mapWrittenData_events {σ : Type} (s : SIState σ) :
    (mapWrittenData s).events = s.events ++ dispatchEvents
      Event.computeWriteMapping Event.mapWriteData Event.clearWriteMapping
      s.writeMappingCtxs s.writeDataCtxs := by
  rw [mapWrittenData_eq]

@[simp] theorem mapReadData_scheme {σ : Type} (s : SIState σ) :
    (mapReadData s).scheme = s.scheme := by rw [mapReadData_eq]

@[simp] theorem mapReadData_meshLock {σ : Type} (s : SIState σ) :
    (mapReadData s).meshLock = s.meshLock := by rw [mapReadData_eq]

@[simp] theorem mapReadData_meshes {σ : Type} (s : SIState σ) :
    (mapReadData s).meshes = s.meshes := by rw [mapReadData_eq]

@[simp] theorem mapReadData_m2ns {σ : Type} (s : SIState σ) :
    (mapReadData s).m2ns = s.m2ns := by rw [mapReadData_eq]

@[simp] theorem mapReadData_events {σ : Type} (s : SIState σ) :
    (mapReadData s).events = s.events ++ dispatchEvents
      Event.computeReadMapping Event.mapReadDataEvt Event.clearReadMapping
      s.readMappingCtxs s.readDataCtxs := by
  rw [mapReadData_eq]

@[simp] theorem allocateDataValues_meshLock {σ : Type} (s : SIState σ)
    (m c : Nat) : (allocateDataValues s m c).meshLock = s.meshLock := rfl

@[simp] theorem allocateDataValues_events {σ : Type} (s : SIState σ)
    (m c : Nat) : (allocateDataValues s m c).events = s.events := rfl

@[simp] theorem allocateDataValues_meshes {σ : Type} (s : SIState σ)
    (m c : Nat) : (allocateDataValues s m c).meshes = s.meshes := rfl

@[simp] theorem allocateDataValues_m2ns {σ : Type} (s : SIState σ)
    (m c : Nat) : (allocateDataValues s m c).m2ns = s.m2ns := rfl

@[simp] theorem allocateDataValues_scheme {σ : Type} (s : SIState σ)
    (m c : Nat) : (allocateDataValues s m c).scheme = s.scheme := rfl

theorem foldl_allocate_proj {σ : Type} {α : Type} (f : SIState σ → α)
    (hf : ∀ (s : SIState σ) (m c : Nat), f (allocateDataValues s m c) = f s) :
    ∀ (l : List MeshCtx) (s : SIState σ),
      f (l.foldl (fun acc c => allocateDataValues acc c.id c.vertices.length) s)
        = f s
  | [], _ => rfl
  | c :: l, s => by
    rw [List.foldl_cons, foldl_allocate_proj f hf l _, hf]

@[simp] theorem computePartitions_meshLock {σ : Type} (s : SIState σ) :
    (computePartitions s).meshLock = s.meshLock := by
  unfold computePartitions
  rw [foldl_allocate_proj (fun t => t.meshLock) (fun _ _ _ => rfl)]

@[simp] theorem computePartitions_scheme {σ : Type} (s : SIState σ) :
    (computePartitions s).scheme = s.scheme := by
  unfold computePartitions
  rw [foldl_allocate_proj (fun t => t.scheme) (fun _ _ _ => rfl)]

@[simp] theorem computePartitions_m2ns {σ : Type} (s : SIState σ) :
    (computePartitions s).m2ns = s.m2ns := by
  unfold computePartitions
  rw [foldl_allocate_proj (fun t => t.m2ns) (fun _ _ _ => rfl)]

theorem computePartitions_events {σ : Type} (s : SIState σ) :
    (computePartitions s).events = s.events
      ++ ((List.insertionSort nameLe s.meshes).map
            fun c => Event.communicateMesh c.name)
      ++ ((provFront (List.insertionSort nameLe s.meshes)).map
            fun c => Event.computeMesh c.name) := by
  unfold computePartitions
  rw [foldl_allocate_proj (fun t => t.events) (fun _ _ _ => rfl)]
  rfl

theorem computePartitions_meshes {σ : Type} (s : SIState σ) :
    (computePartitions s).meshes
      = provFront (List.insertionSort nameLe s.meshes) := by
  unfold computePartitions
  rw [foldl_allocate_proj (fun t => t.meshes) (fun _ _ _ => rfl)]
  rfl

theorem initializePhase_ne_error {σ : Type} (ops : SchemeOps σ) (s : SIState σ)
    (e : ErrorKind) : initializePhase ops s ≠ Except.error e := by
  simp [initializePhase]

theorem initializePhase_meshLock {σ : Type} (ops : SchemeOps σ)
    (s : SIState σ) :
    (okFst s (initializePhase ops s)).meshLock = lockAll s.meshLock := by
  simp only [initializePhase, okFst, okSt, Except.toOption, Option.map_some,
    Option.getD_some]
  split <;> simp

theorem provFront_filter_pos (l : List MeshCtx) :
    (provFront l).filter (fun c => c.provideMesh)
      = l.filter fun c => c.provideMesh := by
  unfold provFront
  rw [List.filter_append]
  have h1 : (l.filter fun c => c.provideMesh).filter (fun c => c.provideMesh)
      = l.filter fun c => c.provideMesh := by
    apply List.filter_eq_self.mpr
    intro a ha
    exact (List.mem_filter.mp ha).2
  have h2 : (l.filter fun c => !c.provideMesh).filter
      (fun c => c.provideMesh) = [] := by
    apply List.filter_eq_nil.mpr
    intro a ha
    have hb := (List.mem_filter.mp ha).2
    simp only [Bool.not_eq_true'] at hb
    simp [hb]
  rw [h1, h2, List.append_nil]

theorem provFront_filter_neg (l : List MeshCtx) :
    (provFront l).filter (fun c => !c.provideMesh)
      = l.filter fun c => !c.provideMesh := by
  unfold provFront
  rw [List.filter_append]
  have h1 : (l.filter fun c => c.provideMesh).filter
      (fun c => !c.provideMesh) = [] := by
    apply List.filter_eq_nil.mpr
    intro a ha
    have hb := (List.mem_filter.mp ha).2
    simp [hb]
  have h2 : (l.filter fun c => !c.provideMesh).filter (fun c => !c.provideMesh)
      = l.filter fun c => !c.provideMesh := by
    apply List.filter_eq_self.mpr
    intro a ha
    exact (List.mem_filter.mp ha).2
  rw [h1, h2, List.nil_append]

theorem provFront_front (l : List MeshCtx) (i j : Nat) (ci cj : MeshCtx)
    (hij : i < j) (hi : (provFront l).get? i = some ci)
    (hj : (provFront l).get? j = some cj) (hcj : cj.provideMesh = true) :
    ci.provideMesh = true := by
  unfold provFront at hi hj
  have hjlt : j < (l.filter fun c => c.provideMesh).length := by
    by_contra hge
    push_neg at hge
    rw [List.get?_append_right hge] at hj
    have hmem := List.get?_mem hj
    have hb := (List.mem_filter.mp hmem).2
    rw [hcj] at hb
    simp at hb
  have hilt : i < (l.filter fun c => c.provideMesh).length :=
    Nat.lt_trans hij hjlt
  rw [List.get?_append hilt] at hi
  exact (List.mem_filter.mp (List.get?_mem hi)).2

/-! ### Claim theorems -/

/-- C6 (counterexample): on a session whose coupling scheme is already
initialized, a second `initialize()` call does not fail with `StateError` -
`SolverInterfaceImpl::initialize` contains no already-initialized check. -/
theorem double_init_counterexample :
    testOps.isInitialized baseState.scheme = true
      ∧ initializePhase testOps baseState ≠ Except.error ErrorKind.stateError :=
  ⟨rfl, initializePhase_ne_error testOps baseState ErrorKind.stateError⟩

/-- C6 (amended): `initialize()` performs no already-initialized check: for
every session state - in particular one whose scheme is already
initialized - the call does not fail with `StateError`; it re-runs the
initialization sequence and returns normally. -/
theorem initialize_without_state_check {σ : Type} (ops : SchemeOps σ)
    (s : SIState σ) :
    initializePhase ops s ≠ Except.error ErrorKind.stateError
      ∧ (initializePhase ops s).isOk = true := by
  exact ⟨initializePhase_ne_error ops s ErrorKind.stateError, rfl⟩

/-- C6 (witness of the amended claim): a second `initialize()` on the
already-initialized base state returns normally. -/
theorem initialize_without_state_check_witness :
    (initializePhase testOps baseState).isOk = true :=
  (initialize_without_state_check testOps baseState).2

/-- C5: during partition computation, communicate() runs for every used
mesh before compute() runs for any mesh (the emitted trace is all
communicate events followed by all compute events); the communicate pass
visits the used-mesh contexts sorted alphabetically by mesh name, each
exactly once; the compute pass visits the same contexts with the provided
meshes stably moved to the front (the relative order inside the provided and
inside the non-provided group is the communicate order, and no non-provided
mesh precedes a provided one). -/
theorem computePartitions_two_pass {σ : Type} (s : SIState σ) :
    (computePartitions s).events = s.events
        ++ ((List.insertionSort nameLe s.meshes).map
              fun c => Event.communicateMesh c.name)
        ++ ((provFront (List.insertionSort nameLe s.meshes)).map
              fun c => Event.computeMesh c.name)
      ∧ ((computePartitions s).events.drop s.events.length)
          = (((computePartitions s).events.drop s.events.length).filter
                isCommEvent)
            ++ (((computePartitions s).events.drop s.events.length).filter
                isCompEvent)
      ∧ List.Sorted (fun a b : List ℕ => a ≤ b)
          ((List.insertionSort nameLe s.meshes).map fun c => c.name)
      ∧ (List.insertionSort nameLe s.meshes).Perm s.meshes
      ∧ (provFront (List.insertionSort nameLe s.meshes)).Perm s.meshes
      ∧ (provFront (List.insertionSort nameLe s.meshes)).filter
            (fun c => c.provideMesh)
          = (List.insertionSort nameLe s.meshes).filter (fun c => c.provideMesh)
      ∧ (provFront (List.insertionSort nameLe s.meshes)).filter
            (fun c => !c.provideMesh)
          = (List.insertionSort nameLe s.meshes).filter (fun c => !c.provideMesh)
      ∧ ∀ i j ci cj, i < j
          → (provFront (List.insertionSort nameLe s.meshes)).get? i = some ci
          → (provFront (List.insertionSort nameLe s.meshes)).get? j = some cj
          → cj.provideMesh = true → ci.provideMesh = true := by
  refine ⟨computePartitions_events s, ?_, ?_, List.perm_insertionSort nameLe
    s.meshes, ?_, provFront_filter_pos _, provFront_filter_neg _,
    fun i j ci cj => provFront_front _ i j ci cj⟩
  · rw [computePartitions_events s, List.append_assoc, List.drop_left]
    rw [List.filter_append, List.filter_append]
    have hc1 : ((List.insertionSort nameLe s.meshes).map
        (fun c => Event.communicateMesh c.name)).filter isCommEvent
        = (List.insertionSort nameLe s.meshes).map
            fun c => Event.communicateMesh c.name := by
      apply List.filter_eq_self.mpr
      intro e he
      rcases List.mem_map.mp he with ⟨c, _, rfl⟩
      rfl
    have hc2 : ((provFront (List.insertionSort nameLe s.meshes)).map
        (fun c => Event.computeMesh c.name)).filter isCommEvent = [] := by
      apply List.filter_eq_nil.mpr
      intro e he
      rcases List.mem_map.mp he with ⟨c, _, rfl⟩
      simp [isCommEvent]
    have hc3 : ((List.insertionSort nameLe s.meshes).map
        (fun c => Event.communicateMesh c.name)).filter isCompEvent = [] := by
      apply List.filter_eq_nil.mpr
      intro e he
      rcases List.mem_map.mp he with ⟨c, _, rfl⟩
      simp [isCompEvent]
    have hc4 : ((provFront (List.insertionSort nameLe s.meshes)).map
        (fun c => Event.computeMesh c.name)).filter isCompEvent
        = (provFront (List.insertionSort nameLe s.meshes)).map
            fun c => Event.computeMesh c.name := by
      apply List.filter_eq_self.mpr
      intro e he
      rcases List.mem_map.mp he with ⟨c, _, rfl⟩
      rfl
    rw [hc1, hc2, hc3, hc4, List.append_nil, List.nil_append]
  · have hsorted := List.sorted_insertionSort nameLe s.meshes
    exact hsorted.map _ fun a b h => h
  · exact (List.filter_append_perm _ _).trans
      (List.perm_insertionSort nameLe s.meshes)

/-- C5 (witness): on a concrete two-mesh state, the communicate pass is
alphabetically sorted. -/
theorem computePartitions_two_pass_witness :
    List.Sorted (fun a b : List ℕ => a ≤ b)
      ((List.insertionSort nameLe twoMeshState.meshes).map fun c => c.name) :=
  (computePartitions_two_pass twoMeshState).2.2.1

/-- C3 (counterexample): on a concrete state where one ON_ADVANCE mapping
context is shared by two read data contexts, the source dispatch
(`mapReadData`) differs from the dispatch the claim describes
(`specMapRead`): the source never sets `hasMappedData` inside the dispatch -
so it zeroes and maps BOTH data contexts - and then resets the flag of every
context, while the claimed dispatch marks the flag after the first
application and skips the second data context. -/
theorem mapReadData_flag_counterexample :
    mapReadData sharedMappingState ≠ specMapRead sharedMappingState := by
  decide

/-- C3 (amended): each run of the read dispatch (a) computes every
not-yet-computed mapping whose timing matches (afterwards exactly the
INITIAL-timing mappings remain computed), (b) for each read data context
carrying a mapping whose timing matches and whose shared `hasMappedData`
flag was unset at dispatch entry, zeroes the target buffer and applies
map(fromData.id, toData.id) - the dispatch itself never sets
`hasMappedData` (the flag is set only by the explicit mapWriteDataFrom /
mapReadDataTo operations), so a mapping shared by several read data contexts
is applied once per data context - and (c) afterwards clears every mapping
context with timing ON_ADVANCE and resets the `hasMappedData` flag of EVERY
mapping context (including INITIAL ones) to false. -/
theorem mapReadData_dispatch_amended {σ : Type} (s : SIState σ) :
    (mapReadData s).readMappingCtxs = s.readMappingCtxs.map clearedCtx
      ∧ (mapReadData s).datas
          = s.datas.map (zeroIfDue s.readMappingCtxs s.readDataCtxs)
      ∧ (mapReadData s).events = s.events
          ++ ((s.readMappingCtxs.enum.filter fun p => needsCompute p.2).map
                fun p => Event.computeReadMapping p.1)
          ++ ((s.readDataCtxs.filter (dueForMapping s.readMappingCtxs)).map
                fun dc => Event.mapReadDataEvt dc.fromDataID dc.toDataID)
          ++ ((s.readMappingCtxs.enum.filter
                fun p => p.2.timing != Timing.initial).map
                fun p => Event.clearReadMapping p.1) := by
  rw [mapReadData_eq]
  refine ⟨rfl, rfl, ?_⟩
  simp [dispatchEvents, List.append_assoc]

theorem resetMesh_ok_eq {σ : Type} (s : SIState σ) (m : Nat) (s1 : SIState σ)
    (h : resetMesh s m = Except.ok s1) :
    s1 = { s with meshLock := unlockMesh s.meshLock m,
                  meshes := s.meshes.map fun mc =>
                    if mc.id == m then { mc with vertices := [] } else mc }
      ∧ validMeshID s m = true := by
  unfold resetMesh at h
  split at h
  · exact absurd h (by simp)
  · next hvalid =>
    split at h
    · exact absurd h (by simp)
    · dsimp only at h
      split at h
      · exact absurd h (by simp)
      · split at h
        · exact absurd h (by simp)
        · refine ⟨(Except.ok.inj h).symm, ?_⟩
          simpa using hvalid

/-- C10: `resetMesh` rejects (with `UsageError`) a mesh whose from- and
to-mapping timings are both INITIAL, rejects a mesh carrying no mapping at
all; on success it unlocks exactly that one mesh (all other lock entries
unchanged), clears the mesh's geometry, and leaves data, events and scheme
untouched. -/
theorem resetMesh_contract {σ : Type} (s : SIState σ) (m : Nat) (c : MeshCtx)
    (hc : findMesh s m = some c)
    (hentry : (s.meshLock.any fun p => p.1 == m) = true) :
    (c.fromTiming = Timing.initial ∧ c.toTiming = Timing.initial →
        resetMesh s m = Except.error ErrorKind.usageError)
      ∧ (c.hasFromMapping = false ∧ c.hasToMapping = false →
        resetMesh s m = Except.error ErrorKind.usageError)
      ∧ ∀ s1, resetMesh s m = Except.ok s1 →
          lockCheck s1.meshLock m = false
          ∧ (∀ m', ¬ m' = m →
              lockCheck s1.meshLock m' = lockCheck s.meshLock m')
          ∧ s1.meshes = s.meshes.map (fun mc =>
              if mc.id == m then { mc with vertices := [] } else mc)
          ∧ s1.datas = s.datas ∧ s1.events = s.events
          ∧ s1.scheme = s.scheme := by
  have hv : validMeshID s m = true := by
    have hs : (findMesh s m).isSome = true := by rw [hc]; rfl
    unfold findMesh at hs
    rw [List.find?_isSome] at hs
    exact List.any_eq_true.mpr hs
  refine ⟨?_, ?_, ?_⟩
  · rintro ⟨h1, h2⟩
    simp [resetMesh, hv, hc, h1, h2]
  · rintro ⟨h1, h2⟩
    by_cases hst :
        (c.fromTiming == Timing.initial && c.toTiming == Timing.initial) = true
    · simp [resetMesh, hv, hc, hst]
    · simp [resetMesh, hv, hc, hst, h1, h2]
  · intro s1 h
    obtain ⟨h1, -⟩ := resetMesh_ok_eq s m s1 h
    subst h1
    refine ⟨lockCheck_unlockMesh_self s.meshLock m hentry, ?_, rfl, rfl, rfl, rfl⟩
    intro m' hne
    exact lockCheck_unlockMesh_ne s.meshLock m m' hne

/-- C10 (witness): resetting the mesh of a concrete state whose mapping
timings are both INITIAL fails with `UsageError`. -/
theorem resetMesh_contract_witness :
    resetMesh stationaryMeshState 0 = Except.error ErrorKind.usageError :=
  (resetMesh_contract stationaryMeshState 0
      { meshA with fromTiming := Timing.initial, toTiming := Timing.initial }
      (by decide) (by decide)).1 ⟨rfl, rfl⟩

theorem validMeshID_iff_findMesh {σ : Type} (s : SIState σ) (m : Nat) :
    validMeshID s m = true ↔ (findMesh s m).isSome = true := by
  unfold validMeshID findMesh
  rw [List.find?_isSome, List.any_eq_true]

theorem setMeshVertex_locked {σ : Type} (s : SIState σ) (m : Nat)
    (pos : List ℚ) (hv : validMeshID s m = true)
    (hl : lockCheck s.meshLock m = true) :
    setMeshVertex s m pos = Except.error ErrorKind.usageError := by
  simp [setMeshVertex, requireMeshModify, hv, hl]

theorem setMeshVertex_unlocked_ok {σ : Type} (s : SIState σ) (m : Nat)
    (pos : List ℚ) (hv : validMeshID s m = true)
    (hl : lockCheck s.meshLock m = false) :
    (setMeshVertex s m pos).isOk = true := by
  have hsome := (validMeshID_iff_findMesh s m).mp hv
  cases hfm : findMesh s m with
  | none => rw [hfm] at hsome; cases hsome
  | some c =>
    unfold setMeshVertex requireMeshModify
    rw [hv, hl, hfm]
    rfl

theorem setMeshVertex_ok_meshLock {σ : Type} (s : SIState σ) (m : Nat)
    (pos : List ℚ) (p : SIState σ × Nat)
    (h : setMeshVertex s m pos = Except.ok p) :
    p.1.meshLock = s.meshLock := by
  unfold setMeshVertex at h
  split at h
  · exact absurd h (by simp)
  · split at h
    · exact absurd h (by simp)
    · dsimp only at h
      rw [← Except.ok.inj h]
      rfl

theorem resetMesh_ok_meshLock {σ : Type} (s : SIState σ) (m : Nat)
    (s1 : SIState σ) (h : resetMesh s m = Except.ok s1) :
    s1.meshLock = unlockMesh s.meshLock m := by
  obtain ⟨h1, -⟩ := resetMesh_ok_eq s m s1 h
  rw [h1]

theorem advance_ok_meshLock {σ : Type} (ops : SchemeOps σ) (s : SIState σ)
    (dt : ℚ) (p : SIState σ × ℚ) (h : advance ops s dt = Except.ok p) :
    p.1.meshLock = lockAll s.meshLock := by
  simp only [advance] at h
  split at h
  · exact absurd h (by simp)
  · split at h
    · exact absurd h (by simp)
    · split at h
      · exact absurd h (by simp)
      · next s1 heq =>
        have hs1 : s1.meshLock = s.meshLock := by
          split at heq
          · split at heq
            · exact absurd heq (by simp)
            · rw [← Except.ok.inj heq]
          · rw [← Except.ok.inj heq]
        rw [← Except.ok.inj h]
        dsimp only
        split <;> simp [hs1]

theorem stepCall_preserves_lock {σ : Type} (ops : SchemeOps σ) (s : SIState σ)
    (m : Nat) (c : ApiCall) (hl : lockCheck s.meshLock m = true)
    (hc : ¬ c = ApiCall.resetCall m) :
    lockCheck (stepCall ops s c).meshLock m = true := by
  cases c with
  | advanceCall dt =>
    unfold stepCall
    dsimp only
    cases h : advance ops s dt with
    | error e => exact hl
    | ok p =>
      dsimp only
      rw [advance_ok_meshLock ops s dt p h, lockCheck_lockAll]
  | resetCall m' =>
    have hne : ¬ m = m' := by
      intro hmm
      exact hc (by rw [hmm])
    unfold stepCall
    dsimp only
    cases h : resetMesh s m' with
    | error e => exact hl
    | ok s1 =>
      dsimp only
      rw [resetMesh_ok_meshLock s m' s1 h,
        lockCheck_unlockMesh_ne s.meshLock m' m hne]
      exact hl
  | setVertexCall m' pos =>
    unfold stepCall
    dsimp only
    cases h : setMeshVertex s m' pos with
    | error e => exact hl
    | ok p =>
      dsimp only
      rw [setMeshVertex_ok_meshLock s m' pos p h]
      exact hl

theorem runCalls_preserves_lock {σ : Type} (ops : SchemeOps σ) (m : Nat) :
    ∀ (cs : List ApiCall) (s : SIState σ),
      lockCheck s.meshLock m = true
      → (∀ c ∈ cs, ¬ c = ApiCall.resetCall m)
      → lockCheck (runCalls ops s cs).meshLock m = true
  | [], _, hl, _ => hl
  | c :: cs, s, hl, hcs => by
    rw [runCalls]
    exact runCalls_preserves_lock ops m cs _
      (stepCall_preserves_lock ops s m c hl (hcs c (List.mem_cons_self c cs)))
      fun c' hc' => hcs c' (List.mem_cons_of_mem c hc')

/-- C4: mesh-lock enforcement.  After `initialize()` every mesh is locked
and `setMeshVertex` on any (valid) mesh fails with `UsageError`; immediately
after a successful `resetMesh(m)` a `setMeshVertex(m, pos)` succeeds again;
every successful `advance()` re-locks all meshes at its end; and a locked
mesh stays locked under any call sequence that contains no `resetMesh` on
it - so after `initialize()`/`advance()`, `setMeshVertex` on a mesh fails
unless `resetMesh` was called on that mesh afterwards. -/
theorem mesh_lock_enforcement {σ : Type} (ops : SchemeOps σ) (s : SIState σ)
    (m : Nat) (pos : List ℚ) (dt : ℚ) (cs : List ApiCall) :
    allLocked (okFst s (initializePhase ops s)).meshLock = true
      ∧ (validMeshID (okFst s (initializePhase ops s)) m = true →
          setMeshVertex (okFst s (initializePhase ops s)) m pos
            = Except.error ErrorKind.usageError)
      ∧ (∀ s1, resetMesh s m = Except.ok s1 →
          (s.meshLock.any fun p => p.1 == m) = true →
          (setMeshVertex s1 m pos).isOk = true)
      ∧ (∀ p, advance ops s dt = Except.ok p →
          allLocked p.1.meshLock = true)
      ∧ (lockCheck s.meshLock m = true →
          (∀ c ∈ cs, ¬ c = ApiCall.resetCall m) →
          lockCheck (runCalls ops s cs).meshLock m = true) := by
  refine ⟨?_, ?_, ?_, ?_, fun hl hcs => runCalls_preserves_lock ops m cs s hl hcs⟩
  · rw [initializePhase_meshLock ops s]
    exact allLocked_lockAll s.meshLock
  · intro hv
    apply setMeshVertex_locked _ m pos hv
    rw [initializePhase_meshLock ops s]
    exact lockCheck_lockAll s.meshLock m
  · intro s1 h hentry
    obtain ⟨h1, hvalid⟩ := resetMesh_ok_eq s m s1 h
    apply setMeshVertex_unlocked_ok
    · rw [h1]
      unfold validMeshID at hvalid ⊢
      dsimp only
      rw [List.any_map]
      rw [List.any_eq_true] at hvalid ⊢
      rcases hvalid with ⟨x, hx, hpx⟩
      refine ⟨x, hx, ?_⟩
      simp only [Function.comp]
      split <;> simpa using hpx
    · rw [h1]
      exact lockCheck_unlockMesh_self s.meshLock m hentry
  · intro p h
    rw [advance_ok_meshLock ops s dt p h]
    exact allLocked_lockAll s.meshLock

/-- C4 (witness): on a concrete two-mesh state, `setMeshVertex` right after
`initialize()` fails with `UsageError`. -/
theorem mesh_lock_enforcement_witness :
    setMeshVertex (okFst twoMeshState (initializePhase testOps twoMeshState))
      0 [] = Except.error ErrorKind.usageError :=
  (mesh_lock_enforcement testOps twoMeshState 0 [] 1 []).2.1 (by decide)

theorem ite_append_list {α : Type} (c : Prop) [Decidable c] (x r : List α) :
    (if c then x ++ r else x) = x ++ (if c then r else []) := by
  split <;> simp

/-- C1 (counterexample): in a release build (NDEBUG defined) on a master
whose slave submitted a different timestep, the source's `advance` performs
no timestep synchronization and succeeds, while the sequence the claim
states starts with the synchronization (which, per the claimed sync rules,
fails here with `ProtocolError`): `advance` differs from the claimed
sequence at this input. -/
theorem advance_sequence_counterexample :
    advance testOps releaseMismatchState 1
      ≠ specAdvanceOrig testOps releaseMismatchState 1 := by
  intro h
  have h1 : (advance testOps releaseMismatchState 1).isOk = true := rfl
  have h2 : (specAdvanceOrig testOps releaseMismatchState 1).isOk = false := rfl
  rw [h, h2] at h1
  cases h1

/-- C1 (amended): for every call under the preconditions (initialized
scheme, coupling ongoing), `advance` performs exactly the claimed sequence -
synchronize the timestep ONLY when assertions are enabled (NDEBUG
undefined) and the participant runs in master-slave mode (in a release
build, and on a serial participant, the step is skipped entirely), then
scheme.addComputedTime, resolve timestepLength/timestepPart against the
updated scheme state, run the write-side dispatch, fire the pre-advance
data actions, scheme.advance, fire the post-advance data actions, run the
read-side dispatch if data was exchanged, handle exports, re-lock all
meshes - and returns scheme.nextTimestepMaxLength of the advanced scheme.
The one implication hypothesis is exactly the condition under which the
synchronization step itself does not abort: it is vacuous for release
builds, serial participants and slave ranks, so those cases are covered
unconditionally; an assertion-enabled master with a mismatched slave
timestep instead fails inside the synchronization (see the claim on sync
determinism). -/
theorem advance_sequence_amended {σ : Type} (ops : SchemeOps σ)
    (s : SIState σ) (dt : ℚ)
    (hInit : ops.isInitialized s.scheme = true)
    (hOn : ops.isCouplingOngoing s.scheme = true)
    (hSync : s.ndebugDefined = false → s.isMaster = true →
      s.isSlave = false → (s.slaveDts.all fun d => mathEquals d dt) = true) :
    (advance ops s dt).isOk = true
      ∧ ((okSt (advance ops s dt)).map fun t => t.scheme)
          = some (ops.advanceScheme (ops.addComputedTime s.scheme dt))
      ∧ ((advance ops s dt).toOption.map Prod.snd)
          = some (ops.getNextTimestepMaxLength
              (ops.advanceScheme (ops.addComputedTime s.scheme dt)))
      ∧ ((okSt (advance ops s dt)).map fun t => allLocked t.meshLock)
          = some true
      ∧ ((okSt (advance ops s dt)).map fun t => t.events)
          = some (advanceTrace ops s dt) := by
  cases hD : s.ndebugDefined <;> cases hM : s.isMaster <;>
    cases hS : s.isSlave <;>
    refine ⟨?_, ?_, ?_, ?_, ?_⟩ <;>
      simp [advance, advanceTrace, okSt, syncTimestep, Except.isOk,
        Except.toBool, hInit, hOn, hD, hM, hS, hSync, Except.toOption,
        mapWrittenData_eq, mapReadData_eq, allLocked_lockAll,
        List.append_assoc, ite_self] <;>
      try (split <;> simp [List.append_assoc])

/-- C1 (witness): on the concrete release-build master state with a
mismatched slave timestep - the very input where the original sequence
fails - the amended sequence holds and `advance` succeeds; the
synchronization hypothesis is vacuous there. -/
theorem advance_sequence_amended_witness :
    (advance testOps releaseMismatchState 1).isOk = true :=
  (advance_sequence_amended testOps releaseMismatchState 1 rfl rfl
    (by decide)).1

/-- C2 (counterexample): a multi-rank master in a release build (NDEBUG
defined) whose two slaves submitted timesteps different from the master's:
`advance` returns normally instead of failing with `ProtocolError` - the
`#ifndef NDEBUG` block containing the synchronization is compiled out. -/
theorem sync_determinism_counterexample :
    (advance testOps releaseMismatchState2 1).isOk = true := by
  decide

/-- C2 (amended): in builds with assertions enabled (NDEBUG undefined), on
the master rank of a multi-rank participant with an initialized, ongoing
scheme: if every slave submitted a tolerantly equal timestep the call
proceeds; otherwise the call fails with `ProtocolError` on the master, the
whole call aborting before the scheme's time state is updated. -/
theorem sync_determinism_amended {σ : Type} (ops : SchemeOps σ)
    (s : SIState σ) (dt : ℚ)
    (hInit : ops.isInitialized s.scheme = true)
    (hOn : ops.isCouplingOngoing s.scheme = true)
    (hDbg : s.ndebugDefined = false)
    (hM : s.isMaster = true) (hS : s.isSlave = false) :
    ((s.slaveDts.all fun d => mathEquals d dt) = true →
        (advance ops s dt).isOk = true)
      ∧ ((s.slaveDts.all fun d => mathEquals d dt) = false →
        advance ops s dt = Except.error ErrorKind.protocolError) := by
  constructor
  · intro hall
    simp [advance, syncTimestep, hInit, hOn, hDbg, hM, hS, hall,
      Except.isOk, Except.toBool]
  · intro hall
    simp [advance, syncTimestep, hInit, hOn, hDbg, hM, hS, hall]

/-- C2 (witness): on concrete debug-build master states, matching slave
timesteps let `advance` proceed and mismatched ones make it fail with
`ProtocolError`. -/
theorem sync_determinism_amended_witness :
    (advance testOps debugMatchState 1).isOk = true
      ∧ advance testOps debugMismatchState 1
        = Except.error ErrorKind.protocolError :=
  ⟨(sync_determinism_amended testOps debugMatchState 1 rfl rfl rfl rfl
      rfl).1 (by decide),
   (sync_determinism_amended testOps debugMismatchState 1 rfl rfl rfl rfl
      rfl).2 (by decide)⟩

/-- C8: `finalize` first runs `scheme.finalize()` (followed by the final
exports); then, for every inter-participant channel in order, the ping/pong
drain - the requesting side sends "ping" then receives "pong", the
accepting side receives "ping" then sends "pong" - immediately followed by
closing that channel; and only after every channel is closed the
intra-participant master-slave channel is closed. -/
theorem finalize_ping_pong {σ : Type} (ops : SchemeOps σ) (s : SIState σ)
    (hInit : ops.isInitialized s.scheme = true)
    (hM : s.isMaster = true) (hS : s.isSlave = false) :
    (finalizeSI ops s).isOk = true
      ∧ ((finalizeSI ops s).toOption.map fun t => t.events)
          = some (s.events ++ [Event.schemeFinalize, Event.finalExports]
              ++ (s.m2ns.map (channelCloseTrace false)).flatten
              ++ [Event.closeMasterSlave])
      ∧ ((finalizeSI ops s).toOption.map fun t => t.scheme)
          = some (ops.finalizeScheme s.scheme) := by
  refine ⟨?_, ?_, ?_⟩ <;>
    simp [finalizeSI, hInit, hM, hS, Except.isOk, Except.toBool,
      Except.toOption, List.append_assoc]

/-- C8 (witness): finalize succeeds on a concrete master state with two
channels. -/
theorem finalize_ping_pong_witness :
    (finalizeSI testOps finalizeState).isOk = true :=
  (finalize_ping_pong testOps finalizeState rfl rfl rfl).1

/-- C9: for every valid data ID, the four block transfer operations called
with size zero return normally and leave the facade state - in particular
every data values buffer - unchanged; the early return skips the
read- and write-access requirement, so on a state without the corresponding
data context the empty call succeeds while the same call with a non-empty
block fails with `UsageError`. -/
theorem block_size_zero_noop {σ : Type} (s : SIState σ) (dataID : Nat)
    (vis : List Int) (vals : List ℚ)
    (hv : validDataID s dataID = true) :
    writeBlockVectorData s dataID [] [] = Except.ok s
      ∧ writeBlockScalarData s dataID [] [] = Except.ok s
      ∧ readBlockVectorData s dataID [] = Except.ok []
      ∧ readBlockScalarData s dataID [] = Except.ok []
      ∧ (findWriteCtx s dataID = none → vis ≠ [] →
          writeBlockVectorData s dataID vis vals
              = Except.error ErrorKind.usageError
            ∧ writeBlockScalarData s dataID vis vals
              = Except.error ErrorKind.usageError)
      ∧ (findReadCtx s dataID = none → vis ≠ [] →
          readBlockVectorData s dataID vis = Except.error ErrorKind.usageError
            ∧ readBlockScalarData s dataID vis
              = Except.error ErrorKind.usageError) := by
  refine ⟨?_, ?_, ?_, ?_, ?_, ?_⟩
  · simp [writeBlockVectorData, hv]
  · simp [writeBlockScalarData, hv]
  · simp [readBlockVectorData, hv]
  · simp [readBlockScalarData, hv]
  · intro hctx hne
    cases vis with
    | nil => exact absurd rfl hne
    | cons i is =>
      constructor
      · simp [writeBlockVectorData, hv, hctx]
      · simp [writeBlockScalarData, hv, hctx]
  · intro hctx hne
    cases vis with
    | nil => exact absurd rfl hne
    | cons i is =>
      constructor
      · simp [readBlockVectorData, hv, hctx]
      · simp [readBlockScalarData, hv, hctx]

/-- C9 (witness): on a concrete state whose data IDs have no write context,
the empty block write succeeds and leaves the state unchanged while the
one-entry block write fails with `UsageError`. -/
theorem block_size_zero_noop_witness :
    writeBlockVectorData orphanDataState 21 [] [] = Except.ok orphanDataState
      ∧ writeBlockVectorData orphanDataState 21 [0] [1, 2]
        = Except.error ErrorKind.usageError :=
  ⟨(block_size_zero_noop orphanDataState 21 [0] [1, 2] (by decide)).1,
   ((block_size_zero_noop orphanDataState 21 [0] [1, 2] (by decide)).2.2.2.2.1
      rfl (by decide)).1⟩

/-- C7: data-access operations of the wrong arity fail with `UsageError` -
every vector operation on a data set of dimensionality 1 and every scalar
operation on a data set of dimensionality equal to the space dimension
(which is at least 2) - while operations of matching arity (on valid,
readable/writable data with an in-range vertex index) succeed. -/
theorem data_arity_checks {σ : Type} (s : SIState σ) (dataID : Nat)
    (ctx rctx : DataCtx) (fd td rfd : DataObj) (vi : Int) (v : ℚ)
    (vals : List ℚ)
    (hv : validDataID s dataID = true)
    (hw : findWriteCtx s dataID = some ctx)
    (hfd : findData s ctx.fromDataID = some fd)
    (hr : findReadCtx s dataID = some rctx)
    (htd : findData s rctx.toDataID = some td)
    (hrfd : findData s rctx.fromDataID = some rfd)
    (hdim : 2 ≤ s.dimensions) :
    (fd.dims = 1 →
        writeVectorData s dataID vi vals = Except.error ErrorKind.usageError
          ∧ ∀ i is vs, writeBlockVectorData s dataID (i :: is) vs
            = Except.error ErrorKind.usageError)
      ∧ (td.dims = 1 → -1 ≤ vi →
        readVectorData s dataID vi = Except.error ErrorKind.usageError
          ∧ ∀ i is, readBlockVectorData s dataID (i :: is)
            = Except.error ErrorKind.usageError)
      ∧ (fd.dims = s.dimensions → -1 ≤ vi →
        writeScalarData s dataID vi v = Except.error ErrorKind.usageError
          ∧ ∀ i is vs, writeBlockScalarData s dataID (i :: is) vs
            = Except.error ErrorKind.usageError)
      ∧ (td.dims = s.dimensions → -1 ≤ vi →
        readScalarData s dataID vi = Except.error ErrorKind.usageError
          ∧ ∀ i is, readBlockScalarData s dataID (i :: is)
            = Except.error ErrorKind.usageError)
      ∧ (fd.dims = s.dimensions → 0 ≤ vi →
          vi < (fd.values.length : Int) / (fd.dims : Int) →
          (writeVectorData s dataID vi vals).isOk = true)
      ∧ (fd.dims = 1 → 0 ≤ vi → vi < (fd.values.length : Int) →
          (writeScalarData s dataID vi v).isOk = true)
      ∧ (td.dims = s.dimensions → rfd.dims = s.dimensions → 0 ≤ vi →
          vi < (td.values.length : Int) / (rfd.dims : Int) →
          (readVectorData s dataID vi).isOk = true)
      ∧ (td.dims = 1 → 0 ≤ vi → vi < (td.values.length : Int) →
          (readScalarData s dataID vi).isOk = true) := by
  have hne1 : s.dimensions ≠ 1 := by omega
  refine ⟨?_, ?_, ?_, ?_, ?_, ?_, ?_, ?_⟩
  · intro h1
    have hb : (fd.dims == s.dimensions) = false := by
      rw [h1]
      exact beq_eq_false_iff_ne.mpr fun hh => hne1 hh.symm
    constructor
    · simp [writeVectorData, hv, hw, hfd, hb]
    · intro i is vs
      simp [writeBlockVectorData, hv, hw, hfd, hb]
  · intro h1 hgem
    have hb : (td.dims == s.dimensions) = false := by
      rw [h1]
      exact beq_eq_false_iff_ne.mpr fun hh => hne1 hh.symm
    have hgeb : ¬ vi < -1 := by omega
    constructor
    · simp [readVectorData, hv, hr, htd, hrfd, hb, hgeb]
    · intro i is
      simp [readBlockVectorData, hv, hr, htd, hrfd, hb]
  · intro h1 hgem
    have hb : (fd.dims == 1) = false := by
      rw [h1]
      exact beq_eq_false_iff_ne.mpr hne1
    have hgeb : ¬ vi < -1 := by omega
    constructor
    · simp [writeScalarData, hv, hw, hfd, hb, hgeb]
    · intro i is vs
      simp [writeBlockScalarData, hv, hw, hfd, hb]
  · intro h1 hgem
    have hb : (td.dims == 1) = false := by
      rw [h1]
      exact beq_eq_false_iff_ne.mpr hne1
    have hgeb : ¬ vi < -1 := by omega
    constructor
    · simp [readScalarData, hv, hr, htd, hb, hgeb]
    · intro i is
      simp [readBlockScalarData, hv, hr, htd, hb]
  · intro h1 h2 h3
    have hb : (fd.dims == s.dimensions) = true := beq_iff_eq.mpr h1
    simp [writeVectorData, hv, hw, hfd, hb, h2, h3, Except.isOk, Except.toBool]
  · intro h1 h2 h3
    have hb : (fd.dims == 1) = true := beq_iff_eq.mpr h1
    have hgeb : ¬ vi < -1 := by omega
    have h3' : vi < (fd.values.length : Int) / (fd.dims : Int) := by
      rw [h1]
      simpa using h3
    simp [writeScalarData, hv, hw, hfd, hb, hgeb, h2, h3', Except.isOk,
      Except.toBool]
  · intro h1 h1' h2 h3
    have hb : (td.dims == s.dimensions) = true := beq_iff_eq.mpr h1
    have hgeb : ¬ vi < -1 := by omega
    simp [readVectorData, hv, hr, htd, hrfd, hb, hgeb, h2, h3, Except.isOk,
      Except.toBool]
  · intro h1 h2 h3
    have hb : (td.dims == 1) = true := beq_iff_eq.mpr h1
    have hgeb : ¬ vi < -1 := by omega
    have hlt : vi.toNat < td.values.length := by omega
    simp [readScalarData, hv, hr, htd, hb, hgeb, h2, h3, Except.isOk,
      Except.toBool, List.get?_eq_get hlt]

/-- C7 (witness): on a concrete state, a vector write to the scalar data
set fails with `UsageError` and a matching scalar write succeeds. -/
theorem data_arity_checks_witness :
    writeVectorData dataState 20 0 [1, 2] = Except.error ErrorKind.usageError
      ∧ (writeScalarData dataState 20 0 7).isOk = true :=
  ⟨((data_arity_checks dataState 20
      { meshId := 0, fromDataID := 20, toDataID := 20, mappingIdx := none }
      { meshId := 0, fromDataID := 20, toDataID := 20, mappingIdx := none }
      scalarData scalarData scalarData 0 7 [1, 2]
      rfl rfl rfl rfl rfl rfl (by decide)).1 rfl).1,
   (data_arity_checks dataState 20
      { meshId := 0, fromDataID := 20, toDataID := 20, mappingIdx := none }
      { meshId := 0, fromDataID := 20, toDataID := 20, mappingIdx := none }
      scalarData scalarData scalarData 0 7 [1, 2]
      rfl rfl rfl rfl rfl rfl (by decide)).2.2.2.2.2.1 rfl (by decide)
      (by decide)⟩

end Precice
